import Mathlib

/-!
Verification of the AutoMateQA self-healing test engine against its
specification.

This file gives a shallow embedding, in Lean 4, of the core of the engine:
the confidence-scored selector resolver (`src/engine/selector.py`), the
healing pipeline (`src/engine/healer.py`), the assertion evaluator
(`src/engine/assertions.py`) and the step executor
(`src/engine/executor.py`), together with proofs and refutations of the
spec's claims about them.

Modelling conventions:
* The browser driver (Playwright) is an external collaborator.  A `Page`
  is modelled as a bundle of query functions from selector strings to
  lists of live elements; a Playwright locator is modelled by the list of
  elements it resolves to.
* Python floats are modelled by exact rationals.  Every confidence value
  produced by the selector engine is an exact multiple of 1/10000, so
  Python's `round(x, 4)` is the identity on them and the rational model
  is faithful there; `round` is modelled as half-up rounding.
* Wall-clock durations, timeouts and retries of pure queries against an
  unchanged DOM have no effect on the state model; the retry loops are
  still modelled as bounded iteration where the control flow depends on
  them.
* `difflib.SequenceMatcher.ratio` (Python standard library) and the
  `re.search` regex engine used by `matches_pattern` assertions are
  modelled as environment-supplied pure functions; no claim in scope
  depends on their exact values.  The two module-level regexes of
  `selector.py` (`_DYNAMIC_CLASS_RE`, `_DYNAMIC_ID_RE`) are translated
  into executable Lean predicates.
-/

namespace AutoMateQA

/-! ## Small string and dictionary helpers -/

/-- Occurrence of `needle` as a contiguous run inside `hay`. -/
def listContains (needle : List Char) : List Char → Bool
  | [] => needle.isEmpty
  | c :: rest => needle.isPrefixOf (c :: rest) || listContains needle rest

/-- Substring test: `needle` occurs inside `hay` (Python `in`). -/
def strContains (hay needle : String) : Bool :=
  listContains needle.data hay.data

/-- Python `str.lower()` (list-based so that terms reduce). -/
def strLower (s : String) : String :=
  ⟨s.data.map Char.toLower⟩

/-- Python `str.strip()`: drop whitespace from both ends. -/
def strTrim (s : String) : String :=
  ⟨((s.data.dropWhile Char.isWhitespace).reverse.dropWhile
      Char.isWhitespace).reverse⟩

/-- Python `s[:n]`. -/
def strTake (s : String) (n : Nat) : String :=
  ⟨s.data.take n⟩

def splitWordsAux : List Char → List Char → List String
  | [], acc => if acc = [] then [] else [⟨acc.reverse⟩]
  | c :: rest, acc =>
    if c.isWhitespace then
      (if acc = [] then [] else [⟨acc.reverse⟩]) ++ splitWordsAux rest []
    else splitWordsAux rest (c :: acc)

/-- Python `str.split()` with no argument: split on whitespace runs,
dropping empty pieces. -/
def splitWords (s : String) : List String :=
  splitWordsAux s.data []

/-- Python dicts with string keys, modelled as association lists with
first-key-wins lookup. -/
abbrev Dict := List (String × String)

def dictGet (d : Dict) (k : String) : Option String :=
  (d.find? (fun kv => kv.1 = k)).map (fun kv => kv.2)

def dictGetD (d : Dict) (k v : String) : String :=
  (dictGet d k).getD v

/-- Python `d[k] = v`: replace in place when the key exists, append otherwise
(Python dicts keep the original insertion position on overwrite). -/
def dictInsert (d : Dict) (k v : String) : Dict :=
  if (d.find? (fun kv => kv.1 = k)).isSome then
    d.map (fun kv => if kv.1 = k then (k, v) else kv)
  else
    d ++ [(k, v)]

/-- Python `d1.update(d2)`. -/
def dictUpdate (d1 d2 : Dict) : Dict :=
  d2.foldl (fun acc kv => dictInsert acc kv.1 kv.2) d1

/-- Jaccard machinery over lists treated as finite sets. -/
def setInterCard (a b : List String) : Nat :=
  (a.dedup.filter (fun x => x ∈ b)).length

def setUnionCard (a b : List String) : Nat :=
  (a ++ b).dedup.length

def pairInterCard (a b : List (String × String)) : Nat :=
  (a.dedup.filter (fun x => x ∈ b)).length

def pairUnionCard (a b : List (String × String)) : Nat :=
  (a ++ b).dedup.length

def digitChar (n : Nat) : Char :=
  Char.ofNat (48 + n)

def natToStrAux : Nat → Nat → List Char
  | 0, _ => []
  | fuel + 1, n =>
    if n < 10 then [digitChar n]
    else natToStrAux fuel (n / 10) ++ [digitChar (n % 10)]

/-- Decimal rendering of a natural number (structural, so terms reduce). -/
def natToStr (n : Nat) : String :=
  ⟨natToStrAux (n + 1) n⟩

def intToStr (i : Int) : String :=
  if i < 0 then "-" ++ natToStr (-i).toNat else natToStr i.toNat

/-- Python `round(x, 4)`, modelled as half-up rounding to 4 decimals
(every confidence computed by the engine is an exact 4-decimal value,
where the two roundings agree). -/
def round4 (q : ℚ) : ℚ :=
  (Int.floor (q * 10000 + 1/2) : ℚ) / 10000

/-- Python `round(x, 2)`, modelled as half-up rounding to 2 decimals. -/
def round2 (q : ℚ) : ℚ :=
  (Int.floor (q * 100 + 1/2) : ℚ) / 100

/-! ## DOM model

An `Element` is a live DOM element as seen through the Playwright
surface: the fields mirror exactly what the engine's JavaScript snippets
and locator calls read from it.  `attrs` is the full attribute map used
by `get_attribute`; the dedicated fields mirror the values the engine's
JS reads (`el.id`, `el.getAttribute('role')`, …). -/

structure Element where
  tag : String := ""
  elemId : String := ""
  classes : List String := []
  text : String := ""
  role : String := ""
  ariaLabel : String := ""
  dataTestid : String := ""
  dataCy : String := ""
  name : String := ""
  placeholder : String := ""
  href : String := ""
  attrs : Dict := []
  visible : Bool := true
  enabled : Bool := true
  hasBox : Bool := true
  deriving Repr, DecidableEq

/-- The abstract browser page surface used by the engine (spec §6): each
query function maps a selector (or role/text/placeholder) to the list of
matching elements, in DOM order.  `enumerate` models the
`document.querySelectorAll` sweep used by deterministic healing. -/
structure Page where
  locate : String → List Element
  getByRole : String → Option String → List Element
  getByTextExact : String → List Element
  getByPlaceholder : String → List Element
  enumerate : String → List Element

/-! Locator operations (a locator is the element list it resolves to). -/

def locNth (l : List Element) (i : Int) : List Element :=
  if i < 0 then [] else (l.drop i.toNat).take 1

def locFirst (l : List Element) : List Element :=
  l.take 1

/-- Playwright `filter(has_text=t)`: case-insensitive substring match on
the element's text. -/
def locFilterHasText (l : List Element) (t : String) : List Element :=
  l.filter (fun e => strContains (strLower e.text) (strLower t))

/-- Playwright `get_by_text(t, exact=True)` within a locator: exact match
against the element's normalized text. -/
def locGetByTextExact (l : List Element) (t : String) : List Element :=
  l.filter (fun e => strTrim e.text = t)

/-- Playwright `locator.text_content()`: the first matched element's text, `none`
when nothing matches (the engine converts that exception to `""`). -/
def locTextContent (l : List Element) : Option String :=
  l.head?.map (fun e => e.text)

def locIsVisible (l : List Element) : Bool :=
  match l.head? with
  | some e => e.visible
  | none => false

def locGetAttr (l : List Element) (n : String) : Option String :=
  l.head?.bind (fun e => dictGet e.attrs n)

/-! ## Data model (`src/engine/models.py`) -/

inductive HealingMode where
  | disabled
  | strict
  | auto_update
  | debug
  deriving Repr, DecidableEq

inductive ActionType where
  | click
  | dblclick
  | type_
  | select
  | check
  | uncheck
  | hover
  | keypress
  | scroll
  | navigate
  deriving Repr, DecidableEq

inductive StepStatus where
  | passed
  | failed
  | healed
  deriving Repr, DecidableEq

inductive AssertionType where
  | visible
  | hidden
  | text_equals
  | text_contains
  | matches_pattern
  | attribute_equals
  | exists_
  deriving Repr, DecidableEq

structure ElementFingerprint where
  tag_name : String := ""
  element_id : String := ""
  class_names : List String := []
  text_content : String := ""
  attributes : Dict := []
  css_selector : String := ""
  xpath : String := ""
  aria_label : String := ""
  role : String := ""
  parent_tag : String := ""
  sibling_index : Int := 0
  nth_of_type : Int := 0
  data_testid : String := ""
  placeholder : String := ""
  name : String := ""
  href : String := ""
  selectors : Dict := []
  deriving Repr, DecidableEq

structure EngineConfig where
  llm_enabled : Bool := false
  llm_provider : String := "openai"
  llm_model : String := "gpt-4o"
  healing_mode : HealingMode := .disabled
  confidence_threshold : ℚ := 0.75
  healing_similarity_threshold : ℚ := 0.6
  max_healing_attempts : Nat := 2
  screenshot_on_failure : Bool := true
  verbose : Bool := false
  headless : Bool := false
  step_timeout_ms : Nat := 30000
  wait_dom_idle_ms : Nat := 600
  wait_network_idle_ms : Nat := 500
  deriving Repr, DecidableEq

/-! ## SelectorEngine (`src/engine/selector.py`) -/

/-- A resolved element candidate with its confidence score. -/
structure SelectorCandidate where
  locator : List Element
  selector : String
  confidence : ℚ
  strategy : String
  deriving Repr, DecidableEq

/-- ASCII letter or digit (regex class `[a-zA-Z0-9]`). -/
def isAlnumAscii (c : Char) : Bool :=
  c.isAlpha || c.isDigit

/-- Regex class `[0-9a-f]` under `re.IGNORECASE`. -/
def isHexChar (c : Char) : Bool :=
  c.isDigit || ('a' ≤ c.toLower && c.toLower ≤ 'f')

/-- Regex `_DYNAMIC_CLASS_RE`, alternative 1:
`^(?:css|sc|emotion|styled|tw)-[a-zA-Z0-9]{3,}$`. -/
def dynClassFramework (s : String) : Bool :=
  ["css-", "sc-", "emotion-", "styled-", "tw-"].any (fun p =>
    p.isPrefixOf s &&
      (let rest := (s.drop p.length).data
       decide (3 ≤ rest.length) && rest.all isAlnumAscii))

/-- Regex `_DYNAMIC_CLASS_RE`, alternative 2: `^_[a-zA-Z0-9]{5,}$`. -/
def dynClassModule (s : String) : Bool :=
  match s.data with
  | [] => false
  | c :: rest => c = '_' && decide (5 ≤ rest.length) && rest.all isAlnumAscii

/-- Regex `_DYNAMIC_CLASS_RE`, alternative 3:
`^[a-z]{1,4}[A-Z][a-zA-Z0-9]{3,8}$` (camelCase hash).  The leading
lowercase run is forced to end exactly at the uppercase character. -/
def dynClassCamelHash (s : String) : Bool :=
  let l := s.data
  let lower := l.takeWhile (fun c => c.isLower)
  let rest := l.drop lower.length
  decide (1 ≤ lower.length) && decide (lower.length ≤ 4) &&
    (match rest with
     | [] => false
     | c :: tail =>
         c.isUpper && decide (3 ≤ tail.length) && decide (tail.length ≤ 8) &&
           tail.all isAlnumAscii)

/-- Model of `SelectorEngine._is_dynamic_class` (match against `_DYNAMIC_CLASS_RE`). -/
def isDynamicClass (s : String) : Bool :=
  dynClassFramework s || dynClassModule s || dynClassCamelHash s

def hasOnlyDynamicClasses (fp : ElementFingerprint) : Bool :=
  match fp.class_names with
  | [] => false
  | cs => cs.all isDynamicClass

/-- Regex `_DYNAMIC_ID_RE`, alternative 1: `^f_[0-9a-f-]{8,}$` (IGNORECASE). -/
def dynIdQuasar (s : String) : Bool :=
  let ls := s.toLower
  "f_".isPrefixOf ls &&
    (let rest := (ls.drop 2).data
     decide (8 ≤ rest.length) && rest.all (fun c => isHexChar c || c = '-'))

/-- Regex `_DYNAMIC_ID_RE`, alternative 2: `^[0-9a-f]{8}-[0-9a-f]{4}-` —
a prefix match (`re.match` does not require the full string). -/
def dynIdUuid (s : String) : Bool :=
  let l := s.data
  decide (13 ≤ l.length) &&
    (l.take 8).all isHexChar && decide (l.get? 8 = some '-') &&
    ((l.drop 9).take 4).all isHexChar && decide (l.get? 13 = some '-')

/-- Regex `_DYNAMIC_ID_RE`, alternative 3: `^\d+$`. -/
def dynIdNumeric (s : String) : Bool :=
  s ≠ "" && s.data.all Char.isDigit

/-- Regex `_DYNAMIC_ID_RE`, alternative 4: `^[a-z_-]*[0-9a-f]{8,}` (IGNORECASE,
prefix match): some (letter/underscore/hyphen)* prefix followed by at
least 8 hex characters, anywhere-in-front with backtracking. -/
def dynIdHexTail (s : String) : Bool :=
  let l := s.toLower.data
  (List.range (l.length + 1)).any (fun i =>
    (l.take i).all (fun c => c.isLower || c = '_' || c = '-') &&
      (let rest := l.drop i
       decide (8 ≤ rest.length) && (rest.take 8).all isHexChar))

/-- Regex `_DYNAMIC_ID_RE`, alternative 5: `^:r[0-9a-z]+:$` (IGNORECASE). -/
def dynIdReactUseId (s : String) : Bool :=
  let l := s.toLower.data
  decide (4 ≤ l.length) && decide (l.get? 0 = some ':') &&
    decide (l.get? 1 = some 'r') && decide (l.getLast? = some ':') &&
    ((l.drop 2).dropLast).all (fun c => c.isDigit || c.isLower)

/-- Match of `_DYNAMIC_ID_RE` (used by `_strategy_id` to reject
dynamic/session-scoped ids). -/
def isDynamicId (s : String) : Bool :=
  dynIdQuasar s || dynIdUuid s || dynIdNumeric s || dynIdHexTail s ||
    dynIdReactUseId s

/-- Confidence formula `0.4*T + 0.2*R + 0.15*A + 0.15*P + 0.1*D`, clipped to 1
and rounded to 4 decimals (`SelectorEngine._compute_live_confidence`). -/
def computeLiveConfidence (t r a p d : ℚ) : ℚ :=
  round4 (min (0.4 * t + 0.2 * r + 0.15 * a + 0.15 * p + 0.1 * d) 1)

/-- Attribute-equality selector fragment `[a="v"]`. -/
def quoteAttr (a v : String) : String :=
  "[" ++ a ++ "=\"" ++ v ++ "\"]"

/-- Model of `SelectorEngine._narrow_by_text`: narrow a multi-match locator using
the fingerprint's captured text. -/
def narrowByText (l : List Element) (fp : ElementFingerprint) :
    Option (List Element) :=
  let text := strTrim fp.text_content
  if text = "" then none
  else
    let filtered := locFilterHasText l (strTake text 80)
    if filtered.length = 1 then some filtered
    else
      let exact := locGetByTextExact l (strTake text 80)
      if exact.length = 1 then some exact
      else none

def precomputedPriority : List String :=
  ["preferred", "data_cy", "role", "name", "placeholder", "label", "text",
   "fallback"]

def precomputedConfidence (k : String) : ℚ :=
  if k = "preferred" then 0.95
  else if k = "data_cy" then 0.92
  else if k = "role" then 0.88
  else if k = "name" then 0.82
  else if k = "placeholder" then 0.80
  else if k = "label" then 0.84
  else if k = "text" then 0.72
  else if k = "fallback" then 0.55
  else 0.5

/-- Body of the key loop of `_strategy_precomputed`. -/
def strategyPrecomputedGo (pg : Page) (fp : ElementFingerprint) :
    List String → Option SelectorCandidate
  | [] => none
  | key :: rest =>
    match dictGet fp.selectors key with
    | none => strategyPrecomputedGo pg fp rest
    | some sel =>
      if sel = "" then strategyPrecomputedGo pg fp rest
      else
        let locator := pg.locate sel
        let count := locator.length
        let base_conf := precomputedConfidence key
        if count = 1 then
          some ⟨locator, sel, base_conf, "precomputed-" ++ key⟩
        else if 1 < count then
          match narrowByText locator fp with
          | some narrowed =>
              some ⟨narrowed, sel ++ " + text", round2 (base_conf * 0.9),
                    "precomputed-" ++ key ++ "+text"⟩
          | none => strategyPrecomputedGo pg fp rest
        else strategyPrecomputedGo pg fp rest

/-- Model of `_strategy_precomputed`: try record-time selectors in priority order. -/
def strategyPrecomputed (pg : Page) (fp : ElementFingerprint) :
    Option SelectorCandidate :=
  if fp.selectors = [] then none
  else strategyPrecomputedGo pg fp precomputedPriority

/-- Model of `_strategy_testid`: exact unique `data-testid` match. -/
def strategyTestid (pg : Page) (fp : ElementFingerprint) :
    Option SelectorCandidate :=
  if fp.data_testid = "" then none
  else
    let selector := quoteAttr "data-testid" fp.data_testid
    let locator := pg.locate selector
    if locator.length = 1 then
      some ⟨locator, selector, computeLiveConfidence 1.0 0.8 0.9 0.8 0.7,
            "data-testid"⟩
    else none

/-- Model of `_strategy_testid_tag`: tag-qualified `data-testid`. -/
def strategyTestidTag (pg : Page) (fp : ElementFingerprint) :
    Option SelectorCandidate :=
  if fp.data_testid = "" ∨ fp.tag_name = "" then none
  else
    let selector := fp.tag_name ++ quoteAttr "data-testid" fp.data_testid
    let locator := pg.locate selector
    let count := locator.length
    if count = 1 then
      some ⟨locator, selector, computeLiveConfidence 0.95 0.7 0.9 0.7 0.7,
            "testid+tag"⟩
    else if 1 < count then
      match narrowByText locator fp with
      | some narrowed =>
          some ⟨narrowed, selector ++ " + text",
                computeLiveConfidence 0.85 0.6 0.8 0.7 0.6, "testid+tag+text"⟩
      | none =>
          some ⟨locFirst locator, selector ++ " >> nth=0",
                computeLiveConfidence 0.8 0.5 0.7 0.8 0.5, "testid+tag+first"⟩
    else none

def testAttrNames : List String :=
  ["data-cy", "data-test", "data-qa", "data-test-id", "data-testid"]

/-- Tag-qualified part of the `_strategy_test_attr` loop body. -/
def strategyTestAttrTag (pg : Page) (fp : ElementFingerprint)
    (attr val : String) : Option SelectorCandidate :=
  if fp.tag_name = "" then none
  else
    let selector := fp.tag_name ++ quoteAttr attr val
    let locator := pg.locate selector
    let count := locator.length
    if count = 1 then
      some ⟨locator, selector, computeLiveConfidence 0.95 0.7 0.9 0.7 0.7,
            attr ++ "+tag"⟩
    else if 1 < count then
      match narrowByText locator fp with
      | some narrowed =>
          some ⟨narrowed, selector ++ " + text",
                computeLiveConfidence 0.85 0.6 0.8 0.7 0.6, attr ++ "+tag+text"⟩
      | none => none
    else none

/-- Body of the attribute loop of `_strategy_test_attr`. -/
def strategyTestAttrGo (pg : Page) (fp : ElementFingerprint) :
    List String → Option SelectorCandidate
  | [] => none
  | attr :: rest =>
    match dictGet fp.attributes attr with
    | none => strategyTestAttrGo pg fp rest
    | some val =>
      if val = "" then strategyTestAttrGo pg fp rest
      else
        let selector := quoteAttr attr val
        let locator := pg.locate selector
        let count := locator.length
        if count = 1 then
          some ⟨locator, selector, computeLiveConfidence 1.0 0.8 0.9 0.8 0.7,
                attr⟩
        else
          let narrowed :=
            if 1 < count then
              match narrowByText locator fp with
              | some n =>
                  some (SelectorCandidate.mk n (selector ++ " + text")
                        (computeLiveConfidence 0.9 0.7 0.85 0.7 0.6)
                        (attr ++ "+text"))
              | none => none
            else none
          match narrowed with
          | some c => some c
          | none =>
            match strategyTestAttrTag pg fp attr val with
            | some c => some c
            | none => strategyTestAttrGo pg fp rest

/-- Model of `_strategy_test_attr`: common testing-library attributes from
`fp.attributes`. -/
def strategyTestAttr (pg : Page) (fp : ElementFingerprint) :
    Option SelectorCandidate :=
  if fp.attributes = [] then none
  else strategyTestAttrGo pg fp testAttrNames

/-- Model of `_strategy_id`: element id, rejecting dynamic/session ids. -/
def strategyId (pg : Page) (fp : ElementFingerprint) :
    Option SelectorCandidate :=
  if fp.element_id = "" then none
  else if isDynamicId fp.element_id then none
  else
    let selector := "#" ++ fp.element_id
    let locator := pg.locate selector
    if locator.length = 1 then
      some ⟨locator, selector, computeLiveConfidence 0.95 0.7 0.8 0.7 0.7,
            "id"⟩
    else none

/-- Model of `_strategy_name`: `name` attribute (form fields). -/
def strategyName (pg : Page) (fp : ElementFingerprint) :
    Option SelectorCandidate :=
  if fp.name = "" then none
  else
    let selector :=
      if fp.tag_name ≠ "" then fp.tag_name ++ quoteAttr "name" fp.name
      else quoteAttr "name" fp.name
    let locator := pg.locate selector
    if locator.length = 1 then
      some ⟨locator, selector, computeLiveConfidence 0.85 0.7 0.85 0.7 0.6,
            "name"⟩
    else none

/-- Model of `_strategy_role`: role + accessible name. -/
def strategyRole (pg : Page) (fp : ElementFingerprint) :
    Option SelectorCandidate :=
  if fp.role = "" then none
  else
    let nameOpt : Option String :=
      if fp.aria_label ≠ "" then some fp.aria_label
      else if fp.text_content ≠ "" then some (strTake fp.text_content 50)
      else none
    let locator := pg.getByRole fp.role nameOpt
    if locator.length = 1 then
      let selector :=
        match nameOpt with
        | some n => "role=" ++ fp.role ++ quoteAttr "name" n
        | none => "role=" ++ fp.role
      some ⟨locator, selector, computeLiveConfidence 0.7 1.0 0.7 0.7 0.6,
            "role+name"⟩
    else none

/-- Model of `_strategy_aria`: aria-label (+tag). -/
def strategyAria (pg : Page) (fp : ElementFingerprint) :
    Option SelectorCandidate :=
  if fp.aria_label = "" then none
  else
    let tagged : Option SelectorCandidate :=
      if fp.tag_name ≠ "" then
        let selector := fp.tag_name ++ quoteAttr "aria-label" fp.aria_label
        let locator := pg.locate selector
        if locator.length = 1 then
          some ⟨locator, selector, computeLiveConfidence 0.7 0.95 0.85 0.7 0.6,
                "aria+tag"⟩
        else none
      else none
    match tagged with
    | some c => some c
    | none =>
      let selector := quoteAttr "aria-label" fp.aria_label
      let locator := pg.locate selector
      if locator.length = 1 then
        some ⟨locator, selector, computeLiveConfidence 0.6 0.9 0.8 0.5 0.5,
              "aria-label"⟩
      else none

/-- Model of `_strategy_placeholder`. -/
def strategyPlaceholder (pg : Page) (fp : ElementFingerprint) :
    Option SelectorCandidate :=
  if fp.placeholder = "" then none
  else
    let locator := pg.getByPlaceholder fp.placeholder
    if locator.length = 1 then
      some ⟨locator, "placeholder=\"" ++ fp.placeholder ++ "\"",
            computeLiveConfidence 0.85 0.7 0.9 0.7 0.6, "placeholder"⟩
    else none

/-- Model of `_strategy_text`: exact text match. -/
def strategyText (pg : Page) (fp : ElementFingerprint) :
    Option SelectorCandidate :=
  if fp.text_content = "" then none
  else
    let text := strTake fp.text_content 80
    let locator := pg.getByTextExact text
    if locator.length = 1 then
      some ⟨locator, "text=\"" ++ text ++ "\"",
            computeLiveConfidence 0.5 0.6 0.7 0.6 0.5, "text-exact"⟩
    else none

/-- Model of `_strategy_tag_text`: tag query narrowed by a text filter. -/
def strategyTagText (pg : Page) (fp : ElementFingerprint) :
    Option SelectorCandidate :=
  if fp.text_content = "" ∨ fp.tag_name = "" then none
  else
    let text := strTake fp.text_content 80
    let locator := locFilterHasText (pg.locate fp.tag_name) text
    if locator.length = 1 then
      some ⟨locator, fp.tag_name ++ ":has-text(\"" ++ text ++ "\")",
            computeLiveConfidence 0.45 0.5 0.65 0.6 0.5, "tag+text"⟩
    else none

/-- Model of `_strategy_css`: recorded CSS selector, penalized when every class is
build-generated. -/
def strategyCss (pg : Page) (fp : ElementFingerprint) :
    Option SelectorCandidate :=
  if fp.css_selector = "" then none
  else
    let dynamic_only := hasOnlyDynamicClasses fp
    let locator := pg.locate fp.css_selector
    let count := locator.length
    if count = 1 then
      let conf :=
        if dynamic_only then computeLiveConfidence 0.3 0.3 0.4 0.5 0.5
        else computeLiveConfidence 0.5 0.5 0.8 0.5 0.5
      some ⟨locator, fp.css_selector, conf,
            "css" ++ (if dynamic_only then " [dynamic]" else "")⟩
    else if 1 < count then
      match narrowByText locator fp with
      | some narrowed =>
          some ⟨narrowed, fp.css_selector ++ " + text",
                computeLiveConfidence 0.5 0.5 0.75 0.6 0.5, "css+text"⟩
      | none =>
        if 0 ≤ fp.nth_of_type then
          let conf :=
            if dynamic_only then computeLiveConfidence 0.2 0.2 0.3 0.6 0.4
            else computeLiveConfidence 0.4 0.4 0.6 0.8 0.5
          some ⟨locNth locator fp.nth_of_type,
                fp.css_selector ++ " >> nth=" ++ intToStr fp.nth_of_type, conf,
                "css+nth" ++ (if dynamic_only then " [dynamic]" else "")⟩
        else none
    else none

/-- Model of `_strategy_xpath`. -/
def strategyXpath (pg : Page) (fp : ElementFingerprint) :
    Option SelectorCandidate :=
  if fp.xpath = "" then none
  else
    let selector := "xpath=" ++ fp.xpath
    let locator := pg.locate selector
    if locator.length = 1 then
      some ⟨locator, selector, computeLiveConfidence 0.3 0.3 0.5 0.7 0.9,
            "xpath"⟩
    else none

/-- Model of `_generate_candidates`: the pre-computed strategy followed by the
fixed strategy list, collecting every hit in order. -/
def generateCandidates (pg : Page) (fp : ElementFingerprint) :
    List SelectorCandidate :=
  (match strategyPrecomputed pg fp with
   | some c => [c]
   | none => []) ++
  [strategyTestid pg fp, strategyTestidTag pg fp, strategyTestAttr pg fp,
   strategyId pg fp, strategyName pg fp, strategyRole pg fp,
   strategyAria pg fp, strategyPlaceholder pg fp, strategyText pg fp,
   strategyTagText pg fp, strategyCss pg fp,
   strategyXpath pg fp].filterMap id

/-- Model of `SelectorEngine._text_overlaps`: word-level overlap check with the
exact-substring fast path. -/
def textOverlaps (expected actual : String) : Bool :=
  if expected = "" then true
  else if actual = "" then false
  else
    let e_lower := strLower expected
    let a_lower := strLower actual
    if strContains a_lower e_lower || strContains e_lower a_lower then true
    else
      let e_words := (splitWords e_lower).dedup
      let a_words := (splitWords a_lower).dedup
      if e_words = [] then true
      else
        let overlap := (e_words.filter (fun w => w ∈ a_words)).length
        decide ((overlap : ℚ) / (e_words.length : ℚ) ≥ 0.4)

/-- Live text of a candidate as read by the post-filter:
`(locator.text_content() or "").strip()`, exceptions giving `""`. -/
def liveTextOf (c : SelectorCandidate) : String :=
  strTrim ((locTextContent c.locator).getD "")

/-- Text-validation block shared verbatim by `resolve` and
`resolve_candidates`: when the fingerprint carries text, keep only the
overlapping candidates — unless that would leave nothing, in which case
the unfiltered list is kept. -/
def textValidate (fp : ElementFingerprint)
    (candidates : List SelectorCandidate) : List SelectorCandidate :=
  let fp_text := strTrim fp.text_content
  if fp_text = "" then candidates
  else
    let validated := candidates.filter (fun c => textOverlaps fp_text (liveTextOf c))
    if validated ≠ [] then validated else candidates

/-- Stable insertion into a confidence-descending list: the new candidate
goes after every strictly more confident one (Python's stable
`list.sort(key=confidence, reverse=True)`). -/
def insertByConfDesc (c : SelectorCandidate) :
    List SelectorCandidate → List SelectorCandidate
  | [] => [c]
  | d :: l =>
    if c.confidence < d.confidence then d :: insertByConfDesc c l
    else c :: d :: l

/-- Stable sort by confidence, descending. -/
def sortByConfDesc : List SelectorCandidate → List SelectorCandidate
  | [] => []
  | c :: l => insertByConfDesc c (sortByConfDesc l)

/-- Model of `SelectorEngine.resolve`: best-scoring validated candidate (returned
even when below the confidence threshold — the shortfall is only
logged). -/
def resolve (pg : Page) (fp : ElementFingerprint) :
    Option SelectorCandidate :=
  let candidates := generateCandidates pg fp
  if candidates = [] then none
  else (sortByConfDesc (textValidate fp candidates)).head?

/-- Model of `SelectorEngine.resolve_candidates`: all validated candidates, best
first. -/
def resolveCandidates (pg : Page) (fp : ElementFingerprint) :
    List SelectorCandidate :=
  let candidates := generateCandidates pg fp
  if candidates = [] then []
  else sortByConfDesc (textValidate fp candidates)

/-! ## HealingEngine (`src/engine/healer.py`) -/

/-- Outcome of one `_ask_llm` round-trip, as seen after transport and
JSON parsing.  The LLM is an external collaborator (spec §6), modelled as
a function from the attempt number to its outcome. -/
inductive LLMOutcome where
  | transportError (msg : String)
  | unparsable (tokens : Nat)
  | reply (selector strategy reasoning : String) (confidence : ℚ) (tokens : Nat)
  deriving Repr

/-- Environment of external collaborators for the healing engine, the
assertion engine and the executor: the page, the LLM, the
`difflib.SequenceMatcher(None, a, b).ratio()` text-similarity function
(`textSimScore`), the `re.search` regex engine (`regexSearch`) and the
success of performing a browser action on a candidate (`actionOk`,
modelling whether `_perform_action` raises). -/
structure World where
  page : Page
  llm : Nat → LLMOutcome
  textSimScore : String → String → ℚ
  regexSearch : String → String → Bool
  actionOk : SelectorCandidate → Bool
  hasHealer : Bool := true

/-- Outcome of a healing attempt (`HealingResult` dataclass). -/
structure HealingResult where
  success : Bool
  new_selector : String := ""
  confidence : ℚ := 0
  explanation : String := ""
  attempts : Nat := 0
  strategy : String := ""
  healing_method : String := ""
  llm_tokens_used : Nat := 0
  healed_fingerprint_similarity : ℚ := 0
  deriving Repr, DecidableEq

/-- Per-heal telemetry record (`HealingTelemetry` dataclass).
`duration_ms` (wall clock) is outside the model;
`original_fingerprint_hash` is the SHA-256 of `fingerprintKey` — hashing
is external, so the model keeps the pre-hash key. -/
structure HealingTelemetry where
  original_selector : String
  healed_selector : String
  original_fingerprint_key : String
  healed_fingerprint_similarity : ℚ
  healing_method : String
  llm_model : String
  llm_tokens_used : Nat
  attempts : Nat
  success : Bool
  deriving Repr, DecidableEq

/-- The run-scoped healing cache `failed selector → healed selector`. -/
abbrev HealCache := Dict

/-- Result bundle of one `heal()` call: the returned `HealingResult`, the
cache after the call, the telemetry records emitted during the call and
the number of LLM round-trips made. -/
structure HealOutput where
  result : HealingResult
  cache : HealCache
  telemetry : List HealingTelemetry
  llmCalls : Nat
  deriving Repr

/-- Model of `HealingEngine._fingerprint_hash`, up to the external SHA-256: the
hashed key string. -/
def fingerprintKey (fp : ElementFingerprint) : String :=
  fp.tag_name ++ "|" ++ fp.role ++ "|" ++ fp.data_testid ++ "|" ++ fp.name ++
    "|" ++ fp.aria_label ++ "|" ++ natToStr fp.text_content.data.length

/-- Model of `HealingEngine._log_healing_telemetry`: the record one call emits. -/
def mkTelemetry (cfg : EngineConfig) (original_selector : String)
    (r : HealingResult) (key : String) : HealingTelemetry :=
  { original_selector := strTake original_selector 200
    healed_selector := strTake r.new_selector 200
    original_fingerprint_key := key
    healed_fingerprint_similarity := r.healed_fingerprint_similarity
    healing_method := if r.healing_method = "" then "none" else r.healing_method
    llm_model := cfg.llm_model
    llm_tokens_used := r.llm_tokens_used
    attempts := r.attempts
    success := r.success }

/-- Model of `_validate_healed_selector_with_reason`: the selector must resolve,
and its first match must be visible, enabled and have a bounding box.
Playwright rejects an empty selector with an error, which the
`except` branch converts to failure. -/
def validateHealedSelectorWithReason (pg : Page) (sel : String) :
    Bool × String :=
  if sel = "" then (false, "exception: empty selector")
  else
    let locator := pg.locate sel
    if locator.length = 0 then (false, "selector matched no elements")
    else
      match (locFirst locator).head? with
      | none => (false, "selector matched no elements")
      | some e =>
        if ¬ e.visible then (false, "element not visible")
        else if ¬ e.enabled then (false, "element not enabled")
        else if ¬ e.hasBox then (false, "element has no bounding box")
        else (true, "")

/-- Model of `_validate_healed_selector`. -/
def validateHealedSelector (pg : Page) (sel : String) : Bool :=
  (validateHealedSelectorWithReason pg sel).1

/-- Model of `_extract_live_fingerprint`: fingerprint of the first element
matching `sel`, read through the page-evaluate JS snippet. -/
def extractLiveFingerprint (pg : Page) (sel : String) :
    Option ElementFingerprint :=
  let locator := pg.locate sel
  match locator.head? with
  | none => none
  | some e =>
    let attrs := e.attrs
    let attrs := if e.dataTestid ≠ "" then dictInsert attrs "data-testid" e.dataTestid else attrs
    let attrs := if e.dataCy ≠ "" then dictInsert attrs "data-cy" e.dataCy else attrs
    some { tag_name := strLower e.tag
           element_id := e.elemId
           class_names := e.classes
           text_content := strTake (strTrim e.text) 500
           attributes := attrs
           aria_label := e.ariaLabel
           role := e.role
           data_testid := e.dataTestid
           placeholder := e.placeholder
           name := e.name
           href := e.href }

/-- Model of `_compute_fingerprint_similarity`: weighted similarity of two
fingerprints.  `sim` is `SequenceMatcher.ratio` (external, in `[0,1]`). -/
def computeFingerprintSimilarity (sim : String → String → ℚ)
    (original live : ElementFingerprint) : ℚ :=
  let tagScore : ℚ :=
    if original.tag_name ≠ "" ∧ live.tag_name ≠ "" then
      if strLower original.tag_name = strLower live.tag_name then 0.15 else 0
    else 0
  let roleScore : ℚ :=
    if original.role ≠ "" ∧ live.role ≠ "" then
      if strLower original.role = strLower live.role then 0.15 else 0
    else if original.role = "" ∧ live.role = "" then 0.05
    else 0
  let orig_test :=
    if original.data_testid ≠ "" then original.data_testid
    else dictGetD original.attributes "data-cy" ""
  let live_test :=
    if live.data_testid ≠ "" then live.data_testid
    else dictGetD live.attributes "data-cy" ""
  let testScore : ℚ :=
    if orig_test ≠ "" ∧ live_test ≠ "" then
      if orig_test = live_test then 0.20 else 0
    else if orig_test = "" ∧ live_test = "" then 0.05
    else 0
  let nameScore : ℚ :=
    if original.name ≠ "" ∧ live.name ≠ "" then
      if original.name = live.name then 0.10 else 0
    else 0
  let otext := strTake (strTrim original.text_content) 200
  let ltext := strTake (strTrim live.text_content) 200
  let textScore : ℚ :=
    if otext ≠ "" ∨ ltext ≠ "" then 0.25 * sim (strLower otext) (strLower ltext)
    else 0.10
  let oclasses := (original.class_names.filter (fun c => c.data.length < 40)).dedup
  let lclasses := (live.class_names.filter (fun c => c.data.length < 40)).dedup
  let classScore : ℚ :=
    if oclasses ≠ [] ∨ lclasses ≠ [] then
      let u := setUnionCard oclasses lclasses
      0.05 * (if u ≠ 0 then (setInterCard oclasses lclasses : ℚ) / (u : ℚ) else 0)
    else 0.02
  let mkAttrs (fp : ElementFingerprint) : Dict :=
    let d : Dict := if fp.href ≠ "" then [("href", fp.href)] else []
    let d := if fp.placeholder ≠ "" then dictInsert d "placeholder" fp.placeholder else d
    let d := if fp.aria_label ≠ "" then dictInsert d "aria-label" fp.aria_label else d
    dictUpdate d fp.attributes
  let oattrs := mkAttrs original
  let lattrs := mkAttrs live
  let attrScore : ℚ :=
    if oattrs ≠ [] ∨ lattrs ≠ [] then
      let u := pairUnionCard oattrs lattrs
      0.10 * (if u ≠ 0 then (pairInterCard oattrs lattrs : ℚ) / (u : ℚ) else 0)
    else 0.03
  round4 (min (tagScore + roleScore + testScore + nameScore + textScore +
               classScore + attrScore) 1)

/-- A candidate dict as returned by the deterministic-heal JS sweep. -/
structure RawCandidate where
  tag : String := ""
  elemId : String := ""
  classes : List String := []
  text : String := ""
  role : String := ""
  ariaLabel : String := ""
  dataTestid : String := ""
  dataCy : String := ""
  name : String := ""
  placeholder : String := ""
  href : String := ""
  deriving Repr, DecidableEq

/-- The per-element projection done by the deterministic-heal JS:
`role` falls back to the lowercase tag name, the text is trimmed and
capped at 100 characters. -/
def rawFromElement (e : Element) : RawCandidate :=
  { tag := strLower e.tag
    elemId := e.elemId
    classes := e.classes
    text := strTake (strTrim e.text) 100
    role := if e.role ≠ "" then e.role else strLower e.tag
    ariaLabel := e.ariaLabel
    dataTestid := e.dataTestid
    dataCy := e.dataCy
    name := e.name
    placeholder := e.placeholder
    href := e.href }

/-- The `ElementFingerprint` the deterministic heal builds from a raw
candidate (`attributes` carries only `data-cy`, when present). -/
def liveFpFromRaw (raw : RawCandidate) : ElementFingerprint :=
  { tag_name := raw.tag
    element_id := raw.elemId
    class_names := raw.classes
    text_content := raw.text
    aria_label := raw.ariaLabel
    role := raw.role
    data_testid := raw.dataTestid
    placeholder := raw.placeholder
    name := raw.name
    href := raw.href
    attributes := if raw.dataCy ≠ "" then [("data-cy", raw.dataCy)] else [] }

/-- Model of `_build_selector_from_candidate`: stable selector synthesis with the
priority data-testid > data-cy > role+name > tag+name > aria-label >
name > placeholder > tag+text > tag. -/
def buildSelectorFromCandidate (c : RawCandidate) : String :=
  let tag := strLower c.tag
  let dt := c.dataTestid
  let dcy := c.dataCy
  let role := c.role
  let name := c.name
  let aria := c.ariaLabel
  let placeholder := c.placeholder
  let text := strTake (strTrim c.text) 80
  if dt ≠ "" then quoteAttr "data-testid" dt
  else if dcy ≠ "" then quoteAttr "data-cy" dcy
  else
    let role_name := if name ≠ "" then name else if aria ≠ "" then aria else text
    if role ≠ "" ∧ role ≠ "div" ∧ role ≠ "span" then
      if role_name ≠ "" then "role=" ++ role ++ quoteAttr "name" (strTake role_name 50)
      else quoteAttr "role" role
    else if name ≠ "" ∧ (tag = "input" ∨ tag = "select" ∨ tag = "textarea" ∨ tag = "button") then
      tag ++ quoteAttr "name" name
    else if aria ≠ "" then quoteAttr "aria-label" aria
    else if name ≠ "" then quoteAttr "name" name
    else if placeholder ≠ "" then quoteAttr "placeholder" placeholder
    else if text ≠ "" ∧ tag ≠ "" then tag ++ ":has-text(\"" ++ strTake text 30 ++ "\")"
    else if tag ≠ "" ∧ tag ≠ "*" then tag
    else ""

/-- Model of `_deterministic_heal`: fingerprint-similarity re-match without the
LLM.  The DOM query cannot fail in the model, so the `except` branch is
unreachable; the similarity value inside the explanation f-string is
elided. -/
def deterministicHeal (cfg : EngineConfig) (w : World)
    (fp : ElementFingerprint) : HealingResult :=
  let threshold := cfg.healing_similarity_threshold
  let tag0 := strLower (strTrim fp.tag_name)
  let tag := if tag0 = "div" ∨ tag0 = "span" ∨ tag0 = "" then "*" else tag0
  let candidates_raw := ((w.page.enumerate tag).take 50).map rawFromElement
  if candidates_raw = [] then
    { success := false, explanation := "No candidates from DOM" }
  else
    let best := candidates_raw.foldl
      (fun acc raw =>
        let score := computeFingerprintSimilarity w.textSimScore fp (liveFpFromRaw raw)
        if acc.1 < score ∧ threshold ≤ score then (score, some raw) else acc)
      ((0 : ℚ), (none : Option RawCandidate))
    match best.2 with
    | none =>
      { success := false, explanation := "No candidate above similarity threshold" }
    | some bestc =>
      let selector := buildSelectorFromCandidate bestc
      if selector = "" then
        { success := false, explanation := "Could not build selector for best candidate" }
      else if ¬ validateHealedSelector w.page selector then
        { success := false,
          explanation := "Deterministic selector did not resolve or not interactable" }
      else
        { success := true
          new_selector := selector
          confidence := min 1 (best.1 + 0.1)
          explanation := "Deterministic match"
          attempts := 0
          healing_method := "deterministic"
          healed_fingerprint_similarity := best.1 }

/-- Model of `_ask_llm`: one LLM round-trip — transport, JSON parsing, token
accounting and the confidence-threshold gate. -/
def askLLM (cfg : EngineConfig) (w : World) (attempt : Nat) : HealingResult :=
  match w.llm attempt with
  | .transportError m =>
    { success := false, explanation := "LLM error: " ++ m }
  | .unparsable tokens =>
    { success := false, explanation := "Failed to parse LLM response",
      llm_tokens_used := tokens }
  | .reply sel strat reas conf tokens =>
    let result : HealingResult :=
      { success := true, new_selector := sel, confidence := conf,
        explanation := reas, strategy := strat, llm_tokens_used := tokens }
    if conf < cfg.confidence_threshold then
      { result with success := false,
                    explanation := "Confidence below threshold" }
    else result

/-- One accepted LLM suggestion: debug demotion, caching, method and
token bookkeeping, telemetry, return (`heal` lines 178–194). -/
def healLLMAccept (cfg : EngineConfig) (failed_selector key : String)
    (cache : HealCache) (r : HealingResult) (total : Nat) (calls : Nat) :
    HealOutput :=
  if cfg.healing_mode = .debug then
    let r' := { r with success := false
                       explanation := r.explanation ++ " (debug mode – not applied)"
                       healing_method := "llm"
                       llm_tokens_used := total }
    { result := r', cache := cache,
      telemetry := [mkTelemetry cfg failed_selector r' key], llmCalls := calls }
  else
    let r' := { r with healing_method := "llm", llm_tokens_used := total }
    { result := r', cache := dictInsert cache failed_selector r.new_selector,
      telemetry := [mkTelemetry cfg failed_selector r' key], llmCalls := calls }

/-- The LLM attempt loop of `heal` (attempts `1 .. max_healing_attempts`),
with the remaining-attempt count as first argument. -/
def healLLMGo (cfg : EngineConfig) (w : World) (fp : ElementFingerprint)
    (failed_selector key : String) (cache : HealCache) :
    Nat → Nat → Nat → Nat → HealOutput
  | 0, _, total, calls =>
    let fail : HealingResult :=
      { success := false
        explanation := "All healing attempts exhausted"
        attempts := cfg.max_healing_attempts
        llm_tokens_used := total }
    { result := fail, cache := cache,
      telemetry := [mkTelemetry cfg failed_selector fail key], llmCalls := calls }
  | rem + 1, attempt, total, calls =>
    let r0 := askLLM cfg w attempt
    let r1 := { r0 with attempts := attempt }
    let total1 := total + r0.llm_tokens_used
    let calls1 := calls + 1
    if r1.success then
      if ¬ validateHealedSelector w.page r1.new_selector then
        healLLMGo cfg w fp failed_selector key cache rem (attempt + 1) total1 calls1
      else
        let fingerprint_threshold : ℚ :=
          if strLower fp.tag_name = "path" ∨ strLower fp.tag_name = "svg"
          then 0.25 else 0.5
        match extractLiveFingerprint w.page r1.new_selector with
        | some live_fp =>
          let similarity := computeFingerprintSimilarity w.textSimScore fp live_fp
          let r2 := { r1 with healed_fingerprint_similarity := similarity }
          if similarity < fingerprint_threshold then
            healLLMGo cfg w fp failed_selector key cache rem (attempt + 1) total1 calls1
          else healLLMAccept cfg failed_selector key cache r2 total1 calls1
        | none => healLLMAccept cfg failed_selector key cache r1 total1 calls1
    else
      healLLMGo cfg w fp failed_selector key cache rem (attempt + 1) total1 calls1

/-- Model of `HealingEngine.heal`: mode gates, cache lookup, deterministic pass,
LLM loop.  Returns the result together with the updated cache, the
telemetry emitted and the number of LLM round-trips. -/
def heal (cfg : EngineConfig) (w : World) (fp : ElementFingerprint)
    (failed_selector : String) (cache : HealCache) : HealOutput :=
  if cfg.healing_mode = .disabled then
    { result := { success := false, explanation := "Healing disabled" },
      cache := cache, telemetry := [], llmCalls := 0 }
  else if ¬ cfg.llm_enabled then
    { result := { success := false, explanation := "LLM disabled" },
      cache := cache, telemetry := [], llmCalls := 0 }
  else
    let key := fingerprintKey fp
    let cacheHit : Option HealingResult :=
      match dictGet cache failed_selector with
      | some cached =>
        if cached ≠ "" ∧ validateHealedSelector w.page cached then
          some { success := true
                 new_selector := cached
                 confidence := cfg.confidence_threshold
                 explanation := "Restored from healing cache"
                 attempts := 0
                 healing_method := "cache" }
        else none
      | none => none
    match cacheHit with
    | some result =>
      { result := result, cache := cache,
        telemetry := [mkTelemetry cfg failed_selector result key], llmCalls := 0 }
    | none =>
      let det_result := deterministicHeal cfg w fp
      if det_result.success then
        let cache' :=
          if cfg.healing_mode ≠ .debug then
            dictInsert cache failed_selector det_result.new_selector
          else cache
        { result := det_result, cache := cache',
          telemetry := [mkTelemetry cfg failed_selector det_result key],
          llmCalls := 0 }
      else
        healLLMGo cfg w fp failed_selector key cache
          cfg.max_healing_attempts 1 0 0

/-! ## AssertionEngine (`src/engine/assertions.py`) -/

def assertionTypeStr : AssertionType → String
  | .visible => "visible"
  | .hidden => "hidden"
  | .text_equals => "text_equals"
  | .text_contains => "text_contains"
  | .matches_pattern => "matches_pattern"
  | .attribute_equals => "attribute_equals"
  | .exists_ => "exists"

structure Assertion where
  assertion_id : String := ""
  assertion_type : AssertionType := .visible
  fingerprint : ElementFingerprint := {}
  expected_value : String := ""
  attribute_name : String := ""
  deriving Repr

structure AssertionResult where
  assertion_id : String := ""
  assertion_type : String := ""
  status : StepStatus := .passed
  message : String := ""
  confidence : ℚ := 0
  healed : Bool := false
  deriving Repr, DecidableEq

/-- Model of `AssertionEngine._dispatch` plus the seven predicate evaluators.
The evaluators are total in the model, so the `except` branch of
`_dispatch` is unreachable.  `matches_pattern` delegates to the external
regex engine `w.regexSearch`. -/
def dispatch (w : World) (a : Assertion) (result : AssertionResult)
    (candidate : Option SelectorCandidate) : AssertionResult :=
  match a.assertion_type with
  | .visible =>
    match candidate with
    | some c =>
      if locIsVisible c.locator then
        { result with status := .passed, message := "Element is visible" }
      else { result with status := .failed, message := "Element is not visible" }
    | none => { result with status := .failed, message := "Element is not visible" }
  | .hidden =>
    match candidate with
    | none => { result with status := .passed, message := "Element is hidden" }
    | some c =>
      if ¬ locIsVisible c.locator then
        { result with status := .passed, message := "Element is hidden" }
      else
        { result with status := .failed,
                      message := "Element is visible (expected hidden)" }
  | .text_equals =>
    match candidate with
    | none => { result with status := .failed, message := "Element not found" }
    | some c =>
      let text := strTrim ((locTextContent c.locator).getD "")
      if text = a.expected_value then
        { result with status := .passed,
                      message := "Text matches: \x27" ++ text ++ "\x27" }
      else
        { result with status := .failed,
                      message := "Text mismatch: expected \x27" ++ a.expected_value ++
                                 "\x27, got \x27" ++ text ++ "\x27" }
  | .text_contains =>
    match candidate with
    | none => { result with status := .failed, message := "Element not found" }
    | some c =>
      let text := strTrim ((locTextContent c.locator).getD "")
      if strContains text a.expected_value then
        { result with status := .passed,
                      message := "Text contains \x27" ++ a.expected_value ++ "\x27" }
      else
        { result with status := .failed,
                      message := "Text \x27" ++ text ++ "\x27 does not contain \x27" ++
                                 a.expected_value ++ "\x27" }
  | .matches_pattern =>
    match candidate with
    | none => { result with status := .failed, message := "Element not found" }
    | some c =>
      let text := strTrim ((locTextContent c.locator).getD "")
      if w.regexSearch a.expected_value text then
        { result with status := .passed,
                      message := "Text matches pattern \x27" ++ a.expected_value ++ "\x27" }
      else
        { result with status := .failed,
                      message := "Text \x27" ++ text ++ "\x27 does not match pattern \x27" ++
                                 a.expected_value ++ "\x27" }
  | .attribute_equals =>
    match candidate with
    | none => { result with status := .failed, message := "Element not found" }
    | some c =>
      let actual := locGetAttr c.locator a.attribute_name
      if actual = some a.expected_value then
        { result with status := .passed,
                      message := "Attribute \x27" ++ a.attribute_name ++ "\x27 = \x27" ++
                                 a.expected_value ++ "\x27" }
      else
        { result with status := .failed,
                      message := "Attribute \x27" ++ a.attribute_name ++
                                 "\x27: expected \x27" ++ a.expected_value ++
                                 "\x27, got \x27" ++ actual.getD "None" ++ "\x27" }
  | .exists_ =>
    match candidate with
    | some c =>
      if 0 < c.locator.length then
        { result with status := .passed, message := "Element exists in DOM" }
      else
        { result with status := .failed, message := "Element does not exist in DOM" }
    | none =>
      { result with status := .failed, message := "Element does not exist in DOM" }

/-- Model of `AssertionEngine._should_heal`. -/
def shouldHeal (cfg : EngineConfig) (w : World) : Bool :=
  w.hasHealer && cfg.llm_enabled && cfg.healing_mode ≠ .disabled

/-- Model of `AssertionEngine._heal_assertion_target`: request a healed selector
for the assertion target and wrap it as a candidate when it resolves. -/
def healAssertionTarget (cfg : EngineConfig) (w : World) (a : Assertion)
    (original_candidate : Option SelectorCandidate) (cache : HealCache) :
    Option SelectorCandidate × HealCache :=
  let failed_selector :=
    match original_candidate with
    | some c => c.selector
    | none => a.fingerprint.css_selector
  let out := heal cfg w a.fingerprint failed_selector cache
  if ¬ out.result.success then (none, out.cache)
  else
    let healed_locator := w.page.locate out.result.new_selector
    if healed_locator.length = 0 then (none, out.cache)
    else
      (some ⟨healed_locator, out.result.new_selector, out.result.confidence,
             "healed"⟩,
       out.cache)

/-- Model of `AssertionEngine.evaluate`: resolve (the `_resolve_with_retry` poll
repeats the same pure query against the unchanged DOM, so it reduces to
one `resolve`), evaluate the predicate, and on a low-confidence failure
heal the target and re-run the identical predicate. -/
def evaluate (cfg : EngineConfig) (w : World) (a : Assertion)
    (cache : HealCache) : AssertionResult × HealCache :=
  let result0 : AssertionResult :=
    { assertion_id := a.assertion_id
      assertion_type := assertionTypeStr a.assertion_type }
  let candidate := resolve w.page a.fingerprint
  let result1 :=
    { result0 with confidence :=
        match candidate with
        | some c => c.confidence
        | none => 0 }
  let result2 := dispatch w a result1 candidate
  if result2.status = .failed ∧ result2.confidence < cfg.confidence_threshold ∧
     shouldHeal cfg w then
    let ht := healAssertionTarget cfg w a candidate cache
    match ht.1 with
    | some healed_candidate =>
      let result3 :=
        { result2 with confidence := healed_candidate.confidence
                       healed := true
                       status := .passed
                       message := "" }
      (dispatch w a result3 (some healed_candidate), ht.2)
    | none => (result2, ht.2)
  else (result2, cache)

/-! ## StepExecutor (`src/engine/executor.py`) -/

structure Action where
  action_type : ActionType := .click
  value : String := ""
  url : String := ""
  click_x : Option ℚ := none
  click_y : Option ℚ := none
  /-- Python `intent.get("expected_navigation", False)` — the only key the
  executor reads from the recorded intent map. -/
  expected_navigation : Bool := false
  deriving Repr

def healingModeStr : HealingMode → String
  | .disabled => "disabled"
  | .strict => "strict"
  | .auto_update => "auto_update"
  | .debug => "debug"

/-- Audit entry for a healed selector (`SelectorHeal` model;
the `healed_at` wall-clock timestamp is outside the model). -/
structure SelectorHeal where
  original_selector : String := ""
  healed_selector : String := ""
  healing_mode : String := ""
  confidence_before : ℚ := 0
  confidence_after : ℚ := 0
  strategy : String := ""
  healing_method : String := ""
  deriving Repr, DecidableEq

structure TestStep where
  step_id : Int := 0
  action : Action := {}
  target : ElementFingerprint := {}
  assertions : List Assertion := []
  selector_history : List SelectorHeal := []
  deriving Repr

/-- Model of `StepResult` (screenshot path and wall-clock duration omitted). -/
structure StepResult where
  step_id : Int := 0
  status : StepStatus := .passed
  element_confidence : ℚ := 0
  healed : Bool := false
  healing_details : String := ""
  error : String := ""
  assertions : List AssertionResult := []
  deriving Repr, DecidableEq

/-- Phase 1 of `_get_candidates_with_healing`: poll `resolve` up to 10
times until a candidate appears. -/
def resolvePhase1 (pg : Page) (fp : ElementFingerprint) :
    Nat → Option SelectorCandidate
  | 0 => none
  | n + 1 =>
    match resolve pg fp with
    | some b => some b
    | none => resolvePhase1 pg fp n

/-- Phase 2: brief hydration retry, keeping whichever candidate scores
higher. -/
def resolvePhase2 (pg : Page) (fp : ElementFingerprint)
    (best : SelectorCandidate) : Nat → SelectorCandidate
  | 0 => best
  | n + 1 =>
    let best' :=
      match resolve pg fp with
      | some retry => if best.confidence < retry.confidence then retry else best
      | none => best
    resolvePhase2 pg fp best' n

/-- Model of `StepExecutor._get_candidates_with_healing`: resolve the fallback
chain and optionally prepend a validated healed candidate, updating the
step's selector history (and, in auto_update mode, its stored target
selector). -/
def getCandidatesWithHealing (cfg : EngineConfig) (w : World)
    (step : TestStep) (result : StepResult) (cache : HealCache) :
    List SelectorCandidate × TestStep × StepResult × HealCache :=
  match resolvePhase1 w.page step.target 10 with
  | none => ([], step, result, cache)
  | some best0 =>
    let best :=
      if best0.confidence < cfg.confidence_threshold then
        resolvePhase2 w.page step.target best0 3
      else best0
    let candidates := resolveCandidates w.page step.target
    if candidates = [] then ([best], step, result, cache)
    else
      if best.confidence < cfg.confidence_threshold ∧
         cfg.healing_mode ≠ .disabled ∧ cfg.llm_enabled then
        let out := heal cfg w step.target best.selector cache
        if out.result.success then
          let healed_locator := w.page.locate out.result.new_selector
          if 0 < healed_locator.length then
            let result' :=
              { result with healed := true
                            healing_details := out.result.explanation }
            let step' :=
              { step with
                selector_history := step.selector_history ++
                  [{ original_selector := best.selector
                     healed_selector := out.result.new_selector
                     healing_mode := healingModeStr cfg.healing_mode
                     confidence_before := best.confidence
                     confidence_after := out.result.confidence
                     strategy := out.result.strategy
                     healing_method := out.result.healing_method }]
                target :=
                  if cfg.healing_mode = .auto_update then
                    { step.target with
                      css_selector := out.result.new_selector
                      selectors := dictInsert step.target.selectors "preferred"
                                     out.result.new_selector }
                  else step.target }
            let healed_candidate : SelectorCandidate :=
              ⟨healed_locator, out.result.new_selector, out.result.confidence,
               "healed"⟩
            (healed_candidate ::
               candidates.filter (fun c => c.selector ≠ out.result.new_selector),
             step', result', out.cache)
          else (candidates, step, result, out.cache)
        else (candidates, step, result, out.cache)
      else (candidates, step, result, cache)

/-- Model of `StepExecutor._is_svg_path_selector`. -/
def isSvgPathSelector (selector : String) : Bool :=
  strContains (strLower selector) "path" || strContains (strLower selector) "svg"

/-- Model of `StepExecutor._try_coordinate_click`: `some` of the updated result
when the click was performed.  Mouse clicks at raw coordinates are
modelled as always succeeding; the coordinate rendering inside the
details f-string is elided. -/
def tryCoordinateClick (step : TestStep) (result : StepResult) :
    Option StepResult :=
  if step.action.action_type ≠ .click ∧ step.action.action_type ≠ .dblclick then
    none
  else
    match step.action.click_x, step.action.click_y with
    | some _, some _ =>
      some { result with element_confidence := 0
                         healing_details := "coordinate-click" }
    | _, _ => none

/-- The fallback-chain walk of `execute`: try the action on each
candidate in turn, recording the attempted candidate's confidence before
each attempt; a candidate's failure advances to the next. -/
def actionChain (w : World) :
    List SelectorCandidate → StepResult → Bool × StepResult
  | [], result => (false, result)
  | c :: rest, result =>
    let result' := { result with element_confidence := c.confidence }
    if w.actionOk c then (true, result')
    else actionChain w rest result'

/-- Model of `StepExecutor._run_assertions`, threading the healing cache through
the per-assertion heal requests. -/
def runAssertions (cfg : EngineConfig) (w : World) :
    List Assertion → HealCache → List AssertionResult × HealCache
  | [], cache => ([], cache)
  | a :: rest, cache =>
    let er := evaluate cfg w a cache
    let rr := runAssertions cfg w rest er.2
    (er.1 :: rr.1, rr.2)

/-- The status finalisation at the end of `execute` (lines 138–145). -/
def finalizeStatus (r : StepResult) : StepResult :=
  if r.assertions.any (fun a => a.status = .failed) then
    { r with status := .failed, error := "One or more assertions failed" }
  else if r.healed then { r with status := .healed }
  else { r with status := .passed }

/-- Model of `StepExecutor.execute`: stabilization waits are pure time (elided);
navigate/scroll skip resolution at full confidence; everything else runs
resolve+heal, the fallback chain with coordinate-click recovery, then
the attached assertions.  All oracles are total, so the outer `except`
branch is unreachable in the model. -/
def execute (cfg : EngineConfig) (w : World) (step : TestStep)
    (cache : HealCache) : StepResult × TestStep × HealCache :=
  let result0 : StepResult := { step_id := step.step_id }
  if step.action.action_type = .navigate ∨ step.action.action_type = .scroll then
    let result1 := { result0 with element_confidence := (1 : ℚ) }
    let ra := runAssertions cfg w step.assertions cache
    (finalizeStatus { result1 with assertions := ra.1 }, step, ra.2)
  else
    let g := getCandidatesWithHealing cfg w step result0 cache
    let step' := g.2.1
    let result1 := g.2.2.1
    let cache1 := g.2.2.2
    match g.1 with
    | [] =>
      (match tryCoordinateClick step' result1 with
       | some result2 =>
         let ra := runAssertions cfg w step'.assertions cache1
         (finalizeStatus { result2 with assertions := ra.1 }, step', ra.2)
       | none =>
         ({ result1 with status := .failed
                         error := "Could not resolve target element" },
          step', cache1))
    | c0 :: _ =>
      let svgFirst : Option StepResult :=
        if ¬ result1.healed ∧
           (step.action.action_type = .click ∨
            step.action.action_type = .dblclick) ∧
           step.action.click_x.isSome ∧ step.action.click_y.isSome ∧
           isSvgPathSelector c0.selector then
          tryCoordinateClick step' result1
        else none
      match svgFirst with
      | some result2 =>
        let ra := runAssertions cfg w step'.assertions cache1
        (finalizeStatus { result2 with assertions := ra.1 }, step', ra.2)
      | none =>
        let ac := actionChain w g.1 result1
        if ac.1 then
          let ra := runAssertions cfg w step'.assertions cache1
          (finalizeStatus { ac.2 with assertions := ra.1 }, step', ra.2)
        else
          match tryCoordinateClick step' ac.2 with
          | some result3 =>
            let ra := runAssertions cfg w step'.assertions cache1
            (finalizeStatus { result3 with assertions := ra.1 }, step', ra.2)
          | none =>
            ({ ac.2 with
                 status := .failed
                 error := "All selectors failed and coordinate click not available" },
             step', cache1)

/-! ## Concrete instances used by counterexamples and witnesses -/

/-- A page with no queryable content at all. -/
def emptyPage : Page where
  locate _ := []
  getByRole _ _ := []
  getByTextExact _ := []
  getByPlaceholder _ := []
  enumerate _ := []

/-- A world over a page with inert collaborators (LLM errors out, text
similarity and regex search are constantly trivial, actions succeed). -/
def plainWorld (pg : Page) : World where
  page := pg
  llm _ := .transportError "connection refused"
  textSimScore _ _ := 0
  regexSearch _ _ := false
  actionOk _ := true

/-- A unique, visible button carrying `data-testid="submit"`. -/
def cexElem1 : Element :=
  { tag := "button", text := "Submit", dataTestid := "submit" }

/-- A DOM in which exactly one element matches
`[data-testid="submit"]` and nothing else resolves. -/
def cexPage1 : Page where
  locate s := if s = "[data-testid=\"submit\"]" then [cexElem1] else []
  getByRole _ _ := []
  getByTextExact _ := []
  getByPlaceholder _ := []
  enumerate _ := []

/-- A fingerprint carrying only that `data-testid`. -/
def cexFp1 : ElementFingerprint := { data_testid := "submit" }

/-- A live element whose text is "Cancel". -/
def cexElem4 : Element := { tag := "button", text := "Cancel" }

/-- A DOM in which the recorded CSS selector `#del` matches exactly the
"Cancel" button. -/
def cexPage4 : Page where
  locate s := if s = "#del" then [cexElem4] else []
  getByRole _ _ := []
  getByTextExact _ := []
  getByPlaceholder _ := []
  enumerate _ := []

/-- A fingerprint recorded on a "Delete account" control whose raw CSS
selector now matches the "Cancel" button. -/
def cexFp4 : ElementFingerprint :=
  { text_content := "Delete account", css_selector := "#del" }

/-- A live "Delete account" button. -/
def elDelete : Element := { tag := "button", text := "Delete account" }

/-- A DOM in which the recorded CSS selector matches the genuine
"Delete account" button, so the text filter has a surviving candidate. -/
def cexPage4b : Page where
  locate s := if s = "#del2" then [elDelete] else []
  getByRole _ _ := []
  getByTextExact _ := []
  getByPlaceholder _ := []
  enumerate _ := []

/-- The matching fingerprint for that DOM. -/
def cexFp4b : ElementFingerprint :=
  { text_content := "Delete account", css_selector := "#del2" }

/-- Healing disabled (the `EngineConfig` defaults). -/
def cfgDisabled : EngineConfig := {}

/-- Strict healing with the LLM enabled. -/
def cfgStrict : EngineConfig :=
  { llm_enabled := true, healing_mode := .strict }

/-- Strict healing with the LLM disabled. -/
def cfgNoLLM : EngineConfig := { healing_mode := .strict }

/-- Debug healing with the LLM enabled. -/
def cfgDebug : EngineConfig :=
  { llm_enabled := true, healing_mode := .debug }

/-- Auto-update healing with the LLM enabled. -/
def cfgAuto : EngineConfig :=
  { llm_enabled := true, healing_mode := .auto_update }

/-- A visible, enabled save button whose `data-testid` is `save-btn`. -/
def elSave : Element :=
  { tag := "button", dataTestid := "save-btn", name := "save" }

/-- A fingerprint recorded on that button (its old selector broke). -/
def fpSave : ElementFingerprint :=
  { tag_name := "button", role := "button", data_testid := "save-btn",
    name := "save" }

/-- A DOM in which the save button is findable by `data-testid` and by
the deterministic tag sweep, while the broken selector `#old-save`
matches nothing. -/
def healPage : Page where
  locate s := if s = "[data-testid=\"save-btn\"]" then [elSave] else []
  getByRole _ _ := []
  getByTextExact _ := []
  getByPlaceholder _ := []
  enumerate t := if t = "button" then [elSave] else []

/-- A paragraph with text "Y". -/
def elTextY : Element := { tag := "p", text := "Y" }

/-- A DOM for the assertion-healing scenario: the recorded selector
`#m` matches nothing, the healed selector `#n` matches a "Y" element. -/
def assertPage : Page where
  locate s := if s = "#n" then [elTextY] else []
  getByRole _ _ := []
  getByTextExact _ := []
  getByPlaceholder _ := []
  enumerate _ := []

/-- A `text_equals` assertion expecting "X" on the `#m` target. -/
def assertX : Assertion :=
  { assertion_id := "a9", assertion_type := .text_equals,
    fingerprint := { css_selector := "#m" }, expected_value := "X" }

/-- A plain bold element (low-confidence xpath resolution only). -/
def elBold : Element := { tag := "b" }

/-- A healed target for the executor scenario. -/
def elGood : Element := { tag := "button", text := "Go" }

/-- A DOM in which only the recorded XPath resolves (confidence 0.45)
and the healed selector `#good` matches a live button. -/
def xpathPage : Page where
  locate s :=
    if s = "xpath=//b" then [elBold]
    else if s = "#good" then [elGood]
    else []
  getByRole _ _ := []
  getByTextExact _ := []
  getByPlaceholder _ := []
  enumerate _ := []

/-- A fingerprint carrying only an XPath. -/
def fpXpath : ElementFingerprint := { xpath := "//b" }

/-- A step targeting the XPath-only fingerprint with a click. -/
def stepXpath : TestStep :=
  { step_id := 7, action := { action_type := .click }, target := fpXpath }

/-- A navigate step carrying one failing assertion (its target is
absent from the empty DOM). -/
def stepNavAssert : TestStep :=
  { step_id := 8, action := { action_type := .navigate, url := "https://x.test" },
    assertions := [assertX] }

/-! ## Properties of the stable confidence sort -/

theorem mem_insertByConfDesc (c : SelectorCandidate) (l : List SelectorCandidate)
    (a : SelectorCandidate) :
    a ∈ insertByConfDesc c l ↔ a = c ∨ a ∈ l := by
  induction l with
  | nil => simp [insertByConfDesc]
  | cons d l ih =>
    by_cases h : c.confidence < d.confidence
    · rw [insertByConfDesc, if_pos h]
      simp only [List.mem_cons, ih]
      try tauto
    · rw [insertByConfDesc, if_neg h]
      simp only [List.mem_cons]
      try tauto

theorem mem_sortByConfDesc (l : List SelectorCandidate) (a : SelectorCandidate) :
    a ∈ sortByConfDesc l ↔ a ∈ l := by
  induction l with
  | nil => simp [sortByConfDesc]
  | cons c l ih =>
    simp [sortByConfDesc, mem_insertByConfDesc, ih]

theorem pairwise_insertByConfDesc (c : SelectorCandidate)
    (l : List SelectorCandidate)
    (h : List.Pairwise (fun a b => b.confidence ≤ a.confidence) l) :
    List.Pairwise (fun a b => b.confidence ≤ a.confidence)
      (insertByConfDesc c l) := by
  induction l with
  | nil => simp [insertByConfDesc]
  | cons d l ih =>
    rcases List.pairwise_cons.mp h with ⟨hd, hl⟩
    by_cases hc : c.confidence < d.confidence
    · rw [insertByConfDesc, if_pos hc]
      refine List.pairwise_cons.mpr ⟨?_, ih hl⟩
      intro a ha
      rcases (mem_insertByConfDesc c l a).mp ha with rfl | ha
      · exact le_of_lt hc
      · exact hd a ha
    · rw [insertByConfDesc, if_neg hc]
      push_neg at hc
      refine List.pairwise_cons.mpr ⟨?_, h⟩
      intro a ha
      rcases List.mem_cons.mp ha with rfl | ha
      · exact hc
      · exact le_trans (hd a ha) hc

theorem pairwise_sortByConfDesc (l : List SelectorCandidate) :
    List.Pairwise (fun a b => b.confidence ≤ a.confidence)
      (sortByConfDesc l) := by
  induction l with
  | nil => simp [sortByConfDesc]
  | cons c l ih => exact pairwise_insertByConfDesc c _ ih

theorem filter_insertByConfDesc_of_ne (c : SelectorCandidate)
    (l : List SelectorCandidate) (q : ℚ) (hc : c.confidence ≠ q) :
    (insertByConfDesc c l).filter (fun d => decide (d.confidence = q)) =
      l.filter (fun d => decide (d.confidence = q)) := by
  induction l with
  | nil => simp [insertByConfDesc, hc]
  | cons d l ih =>
    by_cases h : c.confidence < d.confidence
    · rw [insertByConfDesc, if_pos h]
      simp [List.filter_cons, ih]
    · rw [insertByConfDesc, if_neg h]
      simp [List.filter, hc]

theorem filter_insertByConfDesc_of_eq (c : SelectorCandidate)
    (l : List SelectorCandidate) (q : ℚ) (hc : c.confidence = q) :
    (insertByConfDesc c l).filter (fun d => decide (d.confidence = q)) =
      c :: l.filter (fun d => decide (d.confidence = q)) := by
  induction l with
  | nil => simp [insertByConfDesc, hc]
  | cons d l ih =>
    by_cases h : c.confidence < d.confidence
    · rw [insertByConfDesc, if_pos h]
      have hd : ¬ d.confidence = q := by
        intro hdq
        rw [hc] at h
        exact absurd (hdq ▸ h) (lt_irrefl q)
      simp [List.filter, hd, ih]
    · rw [insertByConfDesc, if_neg h]
      simp [List.filter, hc]

/-- Stability of the sort: candidates sharing one confidence value keep
their generation order. -/
theorem filter_sortByConfDesc (l : List SelectorCandidate) (q : ℚ) :
    (sortByConfDesc l).filter (fun d => decide (d.confidence = q)) =
      l.filter (fun d => decide (d.confidence = q)) := by
  induction l with
  | nil => simp [sortByConfDesc]
  | cons c l ih =>
    by_cases hc : c.confidence = q
    · rw [sortByConfDesc, filter_insertByConfDesc_of_eq c _ q hc]
      simp [List.filter, hc, ih]
    · rw [sortByConfDesc, filter_insertByConfDesc_of_ne c _ q hc]
      simp [List.filter, hc, ih]

theorem sortByConfDesc_ne_nil (l : List SelectorCandidate) (h : l ≠ []) :
    sortByConfDesc l ≠ [] := by
  intro hs
  rcases List.exists_mem_of_ne_nil l h with ⟨a, ha⟩
  have := (mem_sortByConfDesc l a).mpr ha
  rw [hs] at this
  exact absurd this (List.not_mem_nil a)

theorem head?_mem_sortByConfDesc (l : List SelectorCandidate)
    (a : SelectorCandidate) (h : (sortByConfDesc l).head? = some a) :
    a ∈ l := by
  have := List.mem_of_mem_head? h
  exact (mem_sortByConfDesc l a).mp this

theorem head?_sortByConfDesc_ge (l : List SelectorCandidate)
    (a b : SelectorCandidate) (h : (sortByConfDesc l).head? = some a)
    (hb : b ∈ l) : b.confidence ≤ a.confidence := by
  have hbs : b ∈ sortByConfDesc l := (mem_sortByConfDesc l b).mpr hb
  cases hs : sortByConfDesc l with
  | nil => rw [hs] at hbs; exact absurd hbs (List.not_mem_nil b)
  | cons x xs =>
    rw [hs] at h hbs
    simp only [List.head?_cons, Option.some.injEq] at h
    subst h
    rcases List.mem_cons.mp hbs with rfl | hbtail
    · exact le_refl _
    · have hp := pairwise_sortByConfDesc l
      rw [hs] at hp
      exact (List.pairwise_cons.mp hp).1 b hbtail

/-- When one candidate strictly dominates every other, the sort puts it
first. -/
theorem head?_sortByConfDesc_of_max (l : List SelectorCandidate)
    (c : SelectorCandidate) (hc : c ∈ l)
    (hmax : ∀ d ∈ l, d ≠ c → d.confidence < c.confidence) :
    (sortByConfDesc l).head? = some c := by
  cases hs : sortByConfDesc l with
  | nil =>
    exact absurd hs (sortByConfDesc_ne_nil l (List.ne_nil_of_mem hc))
  | cons x xs =>
    have hx : x ∈ l := head?_mem_sortByConfDesc l x (by rw [hs]; rfl)
    have hge : c.confidence ≤ x.confidence :=
      head?_sortByConfDesc_ge l x c (by rw [hs]; rfl) hc
    by_cases hxc : x = c
    · rw [hxc]
      rfl
    · exact absurd (lt_of_lt_of_le (hmax x hx hxc) hge) (lt_irrefl _)

/-! ## Claim C5 -/

theorem textValidate_nil (fp : ElementFingerprint) : textValidate fp [] = [] := by
  simp [textValidate]

/-- C5: for every fingerprint and fixed DOM state, `resolve` returns
exactly the head of `resolve_candidates`; the returned list is sorted by
confidence in descending order; and candidates sharing one confidence
value keep their generation order (the order of the validated candidate
list before sorting). -/
theorem C5_resolve_refines_resolveCandidates (pg : Page)
    (fp : ElementFingerprint) :
    resolve pg fp = (resolveCandidates pg fp).head?
    ∧ List.Pairwise (fun a b => b.confidence ≤ a.confidence)
        (resolveCandidates pg fp)
    ∧ ∀ q : ℚ,
        (resolveCandidates pg fp).filter (fun c => decide (c.confidence = q)) =
          (textValidate fp (generateCandidates pg fp)).filter
            (fun c => decide (c.confidence = q)) := by
  refine ⟨?_, ?_, ?_⟩
  · by_cases h : generateCandidates pg fp = []
    · simp [resolve, resolveCandidates, h]
    · simp [resolve, resolveCandidates, h]
  · by_cases h : generateCandidates pg fp = []
    · simp [resolveCandidates, h]
    · simp only [resolveCandidates, if_neg h]
      exact pairwise_sortByConfDesc _
  · intro q
    by_cases h : generateCandidates pg fp = []
    · simp [resolveCandidates, h, textValidate_nil]
    · simp only [resolveCandidates, if_neg h]
      exact filter_sortByConfDesc _ q

/-! ## Claim C4 -/

unseal Rat.add Rat.mul Rat.inv Rat.sub Rat.ofScientific in
/-- C4: the claim as stated is false — when NO candidate passes the 40%
word-overlap filter, `resolve` keeps the unfiltered candidate list, so a
fingerprint captured on "Delete account" whose raw selector matches the
"Cancel" button does return that "Cancel" candidate when it is the only
one. -/
theorem C4_counterexample :
    (resolve cexPage4 cexFp4).map (fun c => (c.selector, liveTextOf c)) =
      some ("#del", "Cancel")
    ∧ textOverlaps "Delete account" "Cancel" = false := by
  decide

/-- C4 (amended): when the fingerprint carries captured text and at
least one generated candidate passes the 40% word-overlap filter, both
`resolve` and `resolve_candidates` reject every candidate that fails the
filter; when no candidate passes, the unfiltered list is used instead. -/
theorem C4_text_filter (pg : Page) (fp : ElementFingerprint)
    (h : strTrim fp.text_content ≠ "")
    (hex : ∃ c ∈ generateCandidates pg fp,
        textOverlaps (strTrim fp.text_content) (liveTextOf c) = true) :
    (∀ c ∈ resolveCandidates pg fp,
        textOverlaps (strTrim fp.text_content) (liveTextOf c) = true)
    ∧ ∀ c, resolve pg fp = some c →
        textOverlaps (strTrim fp.text_content) (liveTextOf c) = true := by
  rcases hex with ⟨c0, hc0, hov0⟩
  have hgen : generateCandidates pg fp ≠ [] := List.ne_nil_of_mem hc0
  have hfil : (generateCandidates pg fp).filter
      (fun c => textOverlaps (strTrim fp.text_content) (liveTextOf c)) ≠ [] := by
    apply List.ne_nil_of_mem (a := c0)
    exact List.mem_filter.mpr ⟨hc0, hov0⟩
  have hval : textValidate fp (generateCandidates pg fp) =
      (generateCandidates pg fp).filter
        (fun c => textOverlaps (strTrim fp.text_content) (liveTextOf c)) := by
    simp [textValidate, h, hfil]
  have hmem : ∀ c ∈ resolveCandidates pg fp,
      textOverlaps (strTrim fp.text_content) (liveTextOf c) = true := by
    intro c hc
    rw [resolveCandidates, if_neg hgen] at hc
    have := (mem_sortByConfDesc _ c).mp hc
    rw [hval] at this
    exact (List.mem_filter.mp this).2
  refine ⟨hmem, ?_⟩
  intro c hc
  rw [resolve, if_neg hgen] at hc
  apply hmem
  rw [resolveCandidates, if_neg hgen]
  exact List.mem_of_mem_head? hc

unseal Rat.add Rat.mul Rat.inv Rat.sub Rat.ofScientific in
/-- Witness for the amended C4 on a DOM where the raw selector still
matches the genuine "Delete account" button. -/
theorem C4_text_filter_witness :
    (∀ c ∈ resolveCandidates cexPage4b cexFp4b,
        textOverlaps (strTrim cexFp4b.text_content) (liveTextOf c) = true)
    ∧ ∀ c, resolve cexPage4b cexFp4b = some c →
        textOverlaps (strTrim cexFp4b.text_content) (liveTextOf c) = true :=
  C4_text_filter cexPage4b cexFp4b (by decide) (by decide)

/-! ## Claim C1: per-strategy confidence bounds -/

unseal Rat.add Rat.mul Rat.inv Rat.sub Rat.ofScientific in
/-- The fixed factor combinations used by the non-testid strategies all
score strictly below the testid strategy's 0.885. -/
theorem clc_values_lt :
    ∀ q ∈ [computeLiveConfidence 0.95 0.7 0.9 0.7 0.7,
           computeLiveConfidence 0.85 0.6 0.8 0.7 0.6,
           computeLiveConfidence 0.8 0.5 0.7 0.8 0.5,
           computeLiveConfidence 0.9 0.7 0.85 0.7 0.6,
           computeLiveConfidence 0.95 0.7 0.8 0.7 0.7,
           computeLiveConfidence 0.85 0.7 0.85 0.7 0.6,
           computeLiveConfidence 0.7 1.0 0.7 0.7 0.6,
           computeLiveConfidence 0.7 0.95 0.85 0.7 0.6,
           computeLiveConfidence 0.6 0.9 0.8 0.5 0.5,
           computeLiveConfidence 0.85 0.7 0.9 0.7 0.6,
           computeLiveConfidence 0.5 0.6 0.7 0.6 0.5,
           computeLiveConfidence 0.45 0.5 0.65 0.6 0.5,
           computeLiveConfidence 0.3 0.3 0.4 0.5 0.5,
           computeLiveConfidence 0.5 0.5 0.8 0.5 0.5,
           computeLiveConfidence 0.5 0.5 0.75 0.6 0.5,
           computeLiveConfidence 0.2 0.2 0.3 0.6 0.4,
           computeLiveConfidence 0.4 0.4 0.6 0.8 0.5,
           computeLiveConfidence 0.3 0.3 0.5 0.7 0.9],
      q < 177/200 := by
  decide

theorem strategyTestidTag_conf_lt (pg : Page) (fp : ElementFingerprint)
    (c : SelectorCandidate) (h : strategyTestidTag pg fp = some c) :
    c.confidence < 177/200 := by
  rw [strategyTestidTag] at h
  simp only [] at h
  by_cases h1 : fp.data_testid = "" ∨ fp.tag_name = ""
  · rw [if_pos h1] at h
    exact Option.noConfusion h
  · rw [if_neg h1] at h
    by_cases h2 :
        (pg.locate (fp.tag_name ++ quoteAttr "data-testid" fp.data_testid)).length = 1
    · rw [if_pos h2] at h
      cases h
      exact clc_values_lt _ (by simp)
    · rw [if_neg h2] at h
      by_cases h3 :
          1 < (pg.locate (fp.tag_name ++ quoteAttr "data-testid" fp.data_testid)).length
      · rw [if_pos h3] at h
        cases hn : narrowByText
            (pg.locate (fp.tag_name ++ quoteAttr "data-testid" fp.data_testid)) fp with
        | some narrowed =>
          rw [hn] at h
          cases h
          exact clc_values_lt _ (by simp)
        | none =>
          rw [hn] at h
          cases h
          exact clc_values_lt _ (by simp)
      · rw [if_neg h3] at h
        exact Option.noConfusion h

theorem strategyId_conf_lt (pg : Page) (fp : ElementFingerprint)
    (c : SelectorCandidate) (h : strategyId pg fp = some c) :
    c.confidence < 177/200 := by
  rw [strategyId] at h
  simp only [] at h
  by_cases h1 : fp.element_id = ""
  · rw [if_pos h1] at h
    exact Option.noConfusion h
  · rw [if_neg h1] at h
    by_cases h2 : isDynamicId fp.element_id = true
    · rw [if_pos h2] at h
      exact Option.noConfusion h
    · rw [if_neg h2] at h
      by_cases h3 : (pg.locate ("#" ++ fp.element_id)).length = 1
      · rw [if_pos h3] at h
        cases h
        exact clc_values_lt _ (by simp)
      · rw [if_neg h3] at h
        exact Option.noConfusion h

theorem strategyName_conf_lt (pg : Page) (fp : ElementFingerprint)
    (c : SelectorCandidate) (h : strategyName pg fp = some c) :
    c.confidence < 177/200 := by
  rw [strategyName] at h
  simp only [] at h
  by_cases h1 : fp.name = ""
  · rw [if_pos h1] at h
    exact Option.noConfusion h
  · rw [if_neg h1] at h
    by_cases h2 : (pg.locate (if fp.tag_name ≠ "" then
        fp.tag_name ++ quoteAttr "name" fp.name else
        quoteAttr "name" fp.name)).length = 1
    · rw [if_pos h2] at h
      cases h
      exact clc_values_lt _ (by simp)
    · rw [if_neg h2] at h
      exact Option.noConfusion h

theorem strategyRole_conf_lt (pg : Page) (fp : ElementFingerprint)
    (c : SelectorCandidate) (h : strategyRole pg fp = some c) :
    c.confidence < 177/200 := by
  rw [strategyRole] at h
  simp only [] at h
  by_cases h1 : fp.role = ""
  · rw [if_pos h1] at h
    exact Option.noConfusion h
  · rw [if_neg h1] at h
    by_cases h2 : (pg.getByRole fp.role (if fp.aria_label ≠ "" then
        some fp.aria_label else if fp.text_content ≠ "" then
        some (strTake fp.text_content 50) else none)).length = 1
    · rw [if_pos h2] at h
      cases h
      exact clc_values_lt _ (by simp)
    · rw [if_neg h2] at h
      exact Option.noConfusion h

theorem strategyAria_conf_lt (pg : Page) (fp : ElementFingerprint)
    (c : SelectorCandidate) (h : strategyAria pg fp = some c) :
    c.confidence < 177/200 := by
  rw [strategyAria] at h
  simp only [] at h
  by_cases h1 : fp.aria_label = ""
  · rw [if_pos h1] at h
    exact Option.noConfusion h
  · rw [if_neg h1] at h
    by_cases h2 : fp.tag_name ≠ ""
    · rw [if_pos h2] at h
      by_cases h3 : (pg.locate
          (fp.tag_name ++ quoteAttr "aria-label" fp.aria_label)).length = 1
      · rw [if_pos h3] at h
        cases h
        exact clc_values_lt _ (by simp)
      · rw [if_neg h3] at h
        by_cases h4 : (pg.locate (quoteAttr "aria-label" fp.aria_label)).length = 1
        · rw [if_pos h4] at h
          cases h
          exact clc_values_lt _ (by simp)
        · rw [if_neg h4] at h
          exact Option.noConfusion h
    · rw [if_neg h2] at h
      by_cases h4 : (pg.locate (quoteAttr "aria-label" fp.aria_label)).length = 1
      · rw [if_pos h4] at h
        cases h
        exact clc_values_lt _ (by simp)
      · rw [if_neg h4] at h
        exact Option.noConfusion h

theorem strategyPlaceholder_conf_lt (pg : Page) (fp : ElementFingerprint)
    (c : SelectorCandidate) (h : strategyPlaceholder pg fp = some c) :
    c.confidence < 177/200 := by
  rw [strategyPlaceholder] at h
  simp only [] at h
  by_cases h1 : fp.placeholder = ""
  · rw [if_pos h1] at h
    exact Option.noConfusion h
  · rw [if_neg h1] at h
    by_cases h2 : (pg.getByPlaceholder fp.placeholder).length = 1
    · rw [if_pos h2] at h
      cases h
      exact clc_values_lt _ (by simp)
    · rw [if_neg h2] at h
      exact Option.noConfusion h

theorem strategyCss_conf_lt (pg : Page) (fp : ElementFingerprint)
    (c : SelectorCandidate) (h : strategyCss pg fp = some c) :
    c.confidence < 177/200 := by
  rw [strategyCss] at h
  simp only [] at h
  by_cases h1 : fp.css_selector = ""
  · rw [if_pos h1] at h
    exact Option.noConfusion h
  · rw [if_neg h1] at h
    by_cases h2 : (pg.locate fp.css_selector).length = 1
    · rw [if_pos h2] at h
      cases h
      by_cases hd : hasOnlyDynamicClasses fp = true
      · simp only [hd, if_pos]
        exact clc_values_lt _ (by simp)
      · simp only [hd, if_neg]
        exact clc_values_lt _ (by simp)
    · rw [if_neg h2] at h
      by_cases h3 : 1 < (pg.locate fp.css_selector).length
      · rw [if_pos h3] at h
        cases hn : narrowByText (pg.locate fp.css_selector) fp with
        | some narrowed =>
          rw [hn] at h
          cases h
          exact clc_values_lt _ (by simp)
        | none =>
          rw [hn] at h
          by_cases h4 : (0 : Int) ≤ fp.nth_of_type
          · rw [if_pos h4] at h
            cases h
            by_cases hd : hasOnlyDynamicClasses fp = true
            · simp only [hd, if_pos]
              exact clc_values_lt _ (by simp)
            · simp only [hd, if_neg]
              exact clc_values_lt _ (by simp)
          · rw [if_neg h4] at h
            exact Option.noConfusion h
      · rw [if_neg h3] at h
        exact Option.noConfusion h

theorem strategyXpath_conf_lt (pg : Page) (fp : ElementFingerprint)
    (c : SelectorCandidate) (h : strategyXpath pg fp = some c) :
    c.confidence < 177/200 := by
  rw [strategyXpath] at h
  simp only [] at h
  by_cases h1 : fp.xpath = ""
  · rw [if_pos h1] at h
    exact Option.noConfusion h
  · rw [if_neg h1] at h
    by_cases h2 : (pg.locate ("xpath=" ++ fp.xpath)).length = 1
    · rw [if_pos h2] at h
      cases h
      exact clc_values_lt _ (by simp)
    · rw [if_neg h2] at h
      exact Option.noConfusion h

unseal Rat.add Rat.mul Rat.inv Rat.sub Rat.ofScientific in
/-- C1: the claim as stated is false — on a DOM where exactly one element
matches the fingerprint's `data-testid`, `resolve` does return the
testid-strategy candidate, but its confidence —
0.4·1.0 + 0.2·0.8 + 0.15·0.9 + 0.15·0.8 + 0.1·0.7 — is exactly 0.885,
which is below 0.9. -/
theorem C1_counterexample :
    (resolve cexPage1 cexFp1).map (fun c => (c.strategy, c.confidence)) =
      some ("data-testid", 177/200)
    ∧ ¬ (9/10 : ℚ) ≤ 177/200
    ∧ computeLiveConfidence 1.0 0.8 0.9 0.8 0.7 = 177/200 := by
  decide

unseal Rat.add Rat.mul Rat.inv Rat.sub Rat.ofScientific in
/-- C1 (amended): for every fingerprint whose `data-testid` matches
exactly one live element, the testid strategy produces a candidate whose
confidence, computed as 0.4·T + 0.2·R + 0.15·A + 0.15·P + 0.1·D with
T=1.0, R=0.8, A=0.9, P=0.8, D=0.7, is exactly 0.885 (so at least 0.885,
not 0.9); when the fingerprint additionally carries no pre-computed
selectors, no captured test attributes and no captured text, `resolve`
returns that testid-strategy candidate. -/
theorem C1_testid_confidence (pg : Page) (fp : ElementFingerprint)
    (hdt : fp.data_testid ≠ "")
    (hcount : (pg.locate (quoteAttr "data-testid" fp.data_testid)).length = 1)
    (hsel : fp.selectors = [])
    (hattrs : fp.attributes = [])
    (htext : fp.text_content = "") :
    ∃ c, strategyTestid pg fp = some c ∧ resolve pg fp = some c ∧
      c.confidence = 177/200 ∧ c.strategy = "data-testid" := by
  have hclc : computeLiveConfidence 1.0 0.8 0.9 0.8 0.7 = 177/200 := by decide
  refine ⟨⟨pg.locate (quoteAttr "data-testid" fp.data_testid),
           quoteAttr "data-testid" fp.data_testid,
           computeLiveConfidence 1.0 0.8 0.9 0.8 0.7, "data-testid"⟩,
         ?_, ?_, hclc, rfl⟩
  case _ =>
    rw [strategyTestid]
    simp only []
    rw [if_neg hdt, if_pos hcount]
  case _ =>
    have htc : strategyTestid pg fp =
        some ⟨pg.locate (quoteAttr "data-testid" fp.data_testid),
              quoteAttr "data-testid" fp.data_testid,
              computeLiveConfidence 1.0 0.8 0.9 0.8 0.7, "data-testid"⟩ := by
      rw [strategyTestid]
      simp only []
      rw [if_neg hdt, if_pos hcount]
    have hpre : strategyPrecomputed pg fp = none := by
      rw [strategyPrecomputed, if_pos hsel]
    have hta : strategyTestAttr pg fp = none := by
      rw [strategyTestAttr, if_pos hattrs]
    have htx : strategyText pg fp = none := by
      rw [strategyText, if_pos htext]
    have htt : strategyTagText pg fp = none := by
      rw [strategyTagText, if_pos (Or.inl htext)]
    have hmem : ∀ d ∈ generateCandidates pg fp,
        d = (⟨pg.locate (quoteAttr "data-testid" fp.data_testid),
              quoteAttr "data-testid" fp.data_testid,
              computeLiveConfidence 1.0 0.8 0.9 0.8 0.7, "data-testid"⟩ :
              SelectorCandidate)
        ∨ d.confidence < 177/200 := by
      intro d hd
      rw [generateCandidates] at hd
      rcases List.mem_append.mp hd with hd | hd
      · rw [hpre] at hd
        exact absurd hd (List.not_mem_nil d)
      · rcases List.mem_filterMap.mp hd with ⟨o, ho, hod⟩
        simp only [List.mem_cons, List.not_mem_nil, or_false] at ho
        rcases ho with rfl|rfl|rfl|rfl|rfl|rfl|rfl|rfl|rfl|rfl|rfl|rfl
        · rw [htc] at hod
          exact Or.inl (Option.some.inj hod).symm
        · exact Or.inr (strategyTestidTag_conf_lt pg fp d (by simpa using hod))
        · rw [hta] at hod
          exact absurd hod (by simp)
        · exact Or.inr (strategyId_conf_lt pg fp d (by simpa using hod))
        · exact Or.inr (strategyName_conf_lt pg fp d (by simpa using hod))
        · exact Or.inr (strategyRole_conf_lt pg fp d (by simpa using hod))
        · exact Or.inr (strategyAria_conf_lt pg fp d (by simpa using hod))
        · exact Or.inr (strategyPlaceholder_conf_lt pg fp d (by simpa using hod))
        · rw [htx] at hod
          exact absurd hod (by simp)
        · rw [htt] at hod
          exact absurd hod (by simp)
        · exact Or.inr (strategyCss_conf_lt pg fp d (by simpa using hod))
        · exact Or.inr (strategyXpath_conf_lt pg fp d (by simpa using hod))
    have htcmem : (⟨pg.locate (quoteAttr "data-testid" fp.data_testid),
              quoteAttr "data-testid" fp.data_testid,
              computeLiveConfidence 1.0 0.8 0.9 0.8 0.7, "data-testid"⟩ :
              SelectorCandidate) ∈ generateCandidates pg fp := by
      rw [generateCandidates]
      apply List.mem_append_right
      apply List.mem_filterMap.mpr
      exact ⟨strategyTestid pg fp, by simp, by rw [htc]; rfl⟩
    have hgen_ne : generateCandidates pg fp ≠ [] := List.ne_nil_of_mem htcmem
    have hval : textValidate fp (generateCandidates pg fp) =
        generateCandidates pg fp := by
      have h0 : strTrim fp.text_content = "" := by rw [htext]; rfl
      rw [textValidate]
      simp [h0]
    have hmax : ∀ d ∈ generateCandidates pg fp,
        d ≠ (⟨pg.locate (quoteAttr "data-testid" fp.data_testid),
              quoteAttr "data-testid" fp.data_testid,
              computeLiveConfidence 1.0 0.8 0.9 0.8 0.7, "data-testid"⟩ :
              SelectorCandidate) →
        d.confidence < (⟨pg.locate (quoteAttr "data-testid" fp.data_testid),
              quoteAttr "data-testid" fp.data_testid,
              computeLiveConfidence 1.0 0.8 0.9 0.8 0.7, "data-testid"⟩ :
              SelectorCandidate).confidence := by
      intro d hd hne
      rcases hmem d hd with rfl | hlt
      · exact absurd rfl hne
      · exact lt_of_lt_of_eq hlt hclc.symm
    rw [resolve]
    try simp only []
    rw [if_neg hgen_ne, hval]
    exact head?_sortByConfDesc_of_max _ _ htcmem hmax

unseal Rat.add Rat.mul Rat.inv Rat.sub Rat.ofScientific in
/-- Witness for the amended C1 at the concrete unique-testid DOM. -/
theorem C1_testid_confidence_witness :
    ∃ c, strategyTestid cexPage1 cexFp1 = some c ∧
      resolve cexPage1 cexFp1 = some c ∧
      c.confidence = 177/200 ∧ c.strategy = "data-testid" :=
  C1_testid_confidence cexPage1 cexFp1 (by decide) (by decide) rfl rfl rfl

/-! ## Healing-cache and validation lemmas -/

theorem dictGet_map_insert (d : Dict) (k v : String)
    (h : (d.find? (fun kv => kv.1 = k)).isSome) :
    dictGet (d.map (fun kv => if kv.1 = k then (k, v) else kv)) k = some v := by
  induction d with
  | nil => simp at h
  | cons kv d ih =>
    by_cases hk : kv.1 = k
    · simp [dictGet, List.find?_cons, hk]
    · have h' : (d.find? (fun kv => kv.1 = k)).isSome := by
        simpa [List.find?_cons, hk] using h
      simpa [dictGet, List.find?_cons, hk] using ih h'

theorem dictGet_append_single (d : Dict) (k v : String)
    (h : d.find? (fun kv => kv.1 = k) = none) :
    dictGet (d ++ [(k, v)]) k = some v := by
  induction d with
  | nil => simp [dictGet]
  | cons kv d ih =>
    have hk : ¬ kv.1 = k := by
      intro hkk
      simp [List.find?_cons, hkk] at h
    have h' : d.find? (fun kv => kv.1 = k) = none := by
      simpa [List.find?_cons, hk] using h
    simpa [dictGet, List.find?_cons, hk] using ih h'

theorem dictGet_dictInsert_self (d : Dict) (k v : String) :
    dictGet (dictInsert d k v) k = some v := by
  rw [dictInsert]
  by_cases h : (d.find? (fun kv => kv.1 = k)).isSome
  · rw [if_pos h]
    exact dictGet_map_insert d k v h
  · rw [if_neg h]
    exact dictGet_append_single d k v (Option.not_isSome_iff_eq_none.mp h)

/-- A selector that validates is non-empty and resolves to at least one
element. -/
theorem validate_props (pg : Page) (s : String)
    (h : validateHealedSelector pg s = true) :
    s ≠ "" ∧ pg.locate s ≠ [] := by
  rw [validateHealedSelector, validateHealedSelectorWithReason] at h
  by_cases h1 : s = ""
  · rw [if_pos h1] at h
    simp at h
  · refine ⟨h1, ?_⟩
    rw [if_neg h1] at h
    by_cases h2 : (pg.locate s).length = 0
    · rw [if_pos h2] at h
      simp at h
    · intro hnil
      rw [hnil] at h2
      simp at h2

/-- A successful deterministic heal returns a selector that passed live
validation. -/
theorem deterministicHeal_valid (cfg : EngineConfig) (w : World)
    (fp : ElementFingerprint) :
    (deterministicHeal cfg w fp).success = true →
    validateHealedSelector w.page (deterministicHeal cfg w fp).new_selector
      = true := by
  rw [deterministicHeal]
  try simp only []
  split <;>
    (split
     · intro h
       simp at h
     · split
       · intro h
         simp at h
       · split
         · intro h
           simp at h
         · split
           · intro h
             simp at h
           · intro hs2
             rename_i hv
             exact not_not.mp hv)

/-- Every run of the LLM attempt loop emits exactly one telemetry
record. -/
theorem healLLMGo_telemetry (cfg : EngineConfig) (w : World)
    (fp : ElementFingerprint) (sel key : String) (cache : HealCache) :
    ∀ fuel attempt total calls,
      (healLLMGo cfg w fp sel key cache fuel attempt total calls).telemetry.length
        = 1 := by
  intro fuel
  induction fuel with
  | zero => intro attempt total calls; rfl
  | succ n ih =>
    intro attempt total calls
    rw [healLLMGo]
    try simp only []
    split
    · split
      · exact ih _ _ _
      · split
        · split <;>
            (split
             · exact ih _ _ _
             · rw [healLLMAccept]
               split <;> rfl)
        · rw [healLLMAccept]
          split <;> rfl
    · exact ih _ _ _

/-- Outside debug mode, a successful LLM loop caches its validated
selector under the failed selector. -/
theorem healLLMGo_success_invariants (cfg : EngineConfig) (w : World)
    (fp : ElementFingerprint) (sel key : String)
    (hmode : cfg.healing_mode ≠ .debug) :
    ∀ fuel cache attempt total calls,
      (healLLMGo cfg w fp sel key cache fuel attempt total calls).result.success
          = true →
        dictGet
            (healLLMGo cfg w fp sel key cache fuel attempt total calls).cache
            sel =
          some (healLLMGo cfg w fp sel key cache fuel attempt
                  total calls).result.new_selector
        ∧ validateHealedSelector w.page
            (healLLMGo cfg w fp sel key cache fuel attempt
                total calls).result.new_selector = true := by
  intro fuel
  induction fuel with
  | zero =>
    intro cache attempt total calls h
    simp [healLLMGo] at h
  | succ n ih =>
    intro cache attempt total calls
    rw [healLLMGo]
    try simp only []
    split
    · split
      · exact ih _ _ _ _
      · split
        · split <;>
            (split
             · exact ih _ _ _ _
             · rw [healLLMAccept, if_neg hmode]
               intro hs2
               refine ⟨dictGet_dictInsert_self _ _ _, ?_⟩
               simp only [not_not] at *
               assumption)
        · rw [healLLMAccept, if_neg hmode]
          intro hs2
          refine ⟨dictGet_dictInsert_self _ _ _, ?_⟩
          simp only [not_not] at *
          assumption
    · exact ih _ _ _ _

/-- Outside debug mode, any successful `heal` leaves behind a cache
entry mapping the failed selector to the (validated, non-empty) healed
selector. -/
theorem heal_success_invariants (cfg : EngineConfig) (w : World)
    (fp : ElementFingerprint) (sel : String) (cache : HealCache)
    (hdis : cfg.healing_mode ≠ .disabled)
    (hllm : cfg.llm_enabled = true)
    (hmode : cfg.healing_mode ≠ .debug) :
    (heal cfg w fp sel cache).result.success = true →
      dictGet (heal cfg w fp sel cache).cache sel =
        some (heal cfg w fp sel cache).result.new_selector
      ∧ (heal cfg w fp sel cache).result.new_selector ≠ ""
      ∧ validateHealedSelector w.page
          (heal cfg w fp sel cache).result.new_selector = true := by
  rw [heal, if_neg hdis, if_neg (not_not_intro hllm)]
  try simp only []
  split
  · rename_i result heq
    intro _
    cases hd : dictGet cache sel with
    | none =>
      simp only [hd] at heq
      exact absurd heq (by simp)
    | some cached =>
      simp only [hd] at heq
      by_cases hp : cached ≠ "" ∧ validateHealedSelector w.page cached = true
      · rw [if_pos hp] at heq
        cases heq
        exact ⟨rfl, hp.1, hp.2⟩
      · rw [if_neg hp] at heq
        exact absurd heq (by simp)
  · split
    · rename_i hdet
      intro _
      try rw [if_pos hmode]
      have hv := deterministicHeal_valid cfg w fp hdet
      exact ⟨dictGet_dictInsert_self _ _ _, (validate_props _ _ hv).1, hv⟩
    · intro h
      have hinv := healLLMGo_success_invariants cfg w fp sel
        (fingerprintKey fp) hmode cfg.max_healing_attempts cache 1 0 0 h
      exact ⟨hinv.1, (validate_props _ _ hinv.2).1, hinv.2⟩

/-- A cache hit is answered with the run's configured confidence
threshold, zero attempts, method "cache" and no LLM round-trip. -/
theorem heal_cache_hit_spec (cfg : EngineConfig) (w : World)
    (fp : ElementFingerprint) (sel s : String) (cache : HealCache)
    (hdis : cfg.healing_mode ≠ .disabled)
    (hllm : cfg.llm_enabled = true)
    (hs : dictGet cache sel = some s)
    (hne : s ≠ "")
    (hval : validateHealedSelector w.page s = true) :
    (heal cfg w fp sel cache).result.confidence = cfg.confidence_threshold
    ∧ (heal cfg w fp sel cache).result.attempts = 0
    ∧ (heal cfg w fp sel cache).result.healing_method = "cache"
    ∧ (heal cfg w fp sel cache).result.new_selector = s
    ∧ (heal cfg w fp sel cache).result.success = true
    ∧ (heal cfg w fp sel cache).llmCalls = 0 := by
  rw [heal, if_neg hdis, if_neg (not_not_intro hllm)]
  simp only [hs]
  rw [if_pos ⟨hne, hval⟩]
  simp

/-! ## Claim C10 -/

/-- C10: every `heal` call answered from the cache returns confidence
exactly `confidence_threshold` and `attempts = 0`, with
`healing_method = "cache"`, regardless of how the cached selector was
originally healed. -/
theorem C10_cache_answer (cfg : EngineConfig) (w : World)
    (fp : ElementFingerprint) (sel s : String) (cache : HealCache)
    (hdis : cfg.healing_mode ≠ .disabled)
    (hllm : cfg.llm_enabled = true)
    (hs : dictGet cache sel = some s)
    (hne : s ≠ "")
    (hval : validateHealedSelector w.page s = true) :
    (heal cfg w fp sel cache).result.confidence = cfg.confidence_threshold
    ∧ (heal cfg w fp sel cache).result.attempts = 0
    ∧ (heal cfg w fp sel cache).result.healing_method = "cache"
    ∧ (heal cfg w fp sel cache).result.success = true :=
  have h := heal_cache_hit_spec cfg w fp sel s cache hdis hllm hs hne hval
  ⟨h.1, h.2.1, h.2.2.1, h.2.2.2.2.1⟩

/-- Witness for C10 at a concrete pre-populated cache. -/
theorem C10_cache_answer_witness :
    (heal cfgStrict (plainWorld assertPage) {} "#m"
        [("#m", "#n")]).result.confidence = cfgStrict.confidence_threshold
    ∧ (heal cfgStrict (plainWorld assertPage) {} "#m"
        [("#m", "#n")]).result.attempts = 0
    ∧ (heal cfgStrict (plainWorld assertPage) {} "#m"
        [("#m", "#n")]).result.healing_method = "cache"
    ∧ (heal cfgStrict (plainWorld assertPage) {} "#m"
        [("#m", "#n")]).result.success = true :=
  C10_cache_answer cfgStrict (plainWorld assertPage) {} "#m" "#n"
    [("#m", "#n")] (by decide) rfl (by decide) (by decide) (by decide)

/-! ## Claim C6 -/

/-- C6: after a successful non-debug heal of a failed selector, a second
`heal` with the same failed selector against the unchanged DOM returns
the same `new_selector`, is answered from the cache, and makes no LLM
round-trip. -/
theorem C6_second_heal_from_cache (cfg : EngineConfig) (w : World)
    (fp : ElementFingerprint) (sel : String) (cache : HealCache)
    (hdis : cfg.healing_mode ≠ .disabled)
    (hllm : cfg.llm_enabled = true)
    (hmode : cfg.healing_mode ≠ .debug)
    (hsucc : (heal cfg w fp sel cache).result.success = true) :
    (heal cfg w fp sel (heal cfg w fp sel cache).cache).result.new_selector =
      (heal cfg w fp sel cache).result.new_selector
    ∧ (heal cfg w fp sel
        (heal cfg w fp sel cache).cache).result.healing_method = "cache"
    ∧ (heal cfg w fp sel (heal cfg w fp sel cache).cache).llmCalls = 0
    ∧ (heal cfg w fp sel
        (heal cfg w fp sel cache).cache).result.success = true := by
  have hinv := heal_success_invariants cfg w fp sel cache hdis hllm hmode hsucc
  have h2 := heal_cache_hit_spec cfg w fp sel
    (heal cfg w fp sel cache).result.new_selector
    (heal cfg w fp sel cache).cache hdis hllm hinv.1 hinv.2.1 hinv.2.2
  exact ⟨h2.2.2.2.1, h2.2.2.1, h2.2.2.2.2.2, h2.2.2.2.2.1⟩

unseal Rat.add Rat.mul Rat.inv Rat.sub Rat.ofScientific in
/-- Witness for C6: the save button heals deterministically on the
first call; the theorem then forces the second call onto the cache. -/
theorem C6_second_heal_from_cache_witness :
    (heal cfgStrict (plainWorld healPage) fpSave "#old-save"
        (heal cfgStrict (plainWorld healPage) fpSave "#old-save"
          []).cache).result.new_selector =
      (heal cfgStrict (plainWorld healPage) fpSave "#old-save"
        []).result.new_selector
    ∧ (heal cfgStrict (plainWorld healPage) fpSave "#old-save"
        (heal cfgStrict (plainWorld healPage) fpSave "#old-save"
          []).cache).result.healing_method = "cache"
    ∧ (heal cfgStrict (plainWorld healPage) fpSave "#old-save"
        (heal cfgStrict (plainWorld healPage) fpSave "#old-save"
          []).cache).llmCalls = 0
    ∧ (heal cfgStrict (plainWorld healPage) fpSave "#old-save"
        (heal cfgStrict (plainWorld healPage) fpSave "#old-save"
          []).cache).result.success = true :=
  C6_second_heal_from_cache cfgStrict (plainWorld healPage) fpSave
    "#old-save" [] (by decide) rfl (by decide) (by decide)

/-! ## Claim C3 -/

/-- C3: the claim as stated is false — the disabled-mode and LLM-off
early returns of `heal()` emit no telemetry record at all. -/
theorem C3_counterexample :
    (heal cfgDisabled (plainWorld emptyPage) {} "#x" []).telemetry.length = 0
    ∧ (heal cfgNoLLM (plainWorld emptyPage) {} "#x" []).telemetry.length = 0 := by
  decide

/-- C3 (amended): every `heal` call that passes the mode and LLM gates
(healing mode not disabled, LLM enabled) emits exactly one structured
telemetry record, on every path — cache hit, deterministic success, LLM
success and exhaustion; the disabled and LLM-off early returns emit
none. -/
theorem C3_one_telemetry_record (cfg : EngineConfig) (w : World)
    (fp : ElementFingerprint) (sel : String) (cache : HealCache)
    (hdis : cfg.healing_mode ≠ .disabled)
    (hllm : cfg.llm_enabled = true) :
    (heal cfg w fp sel cache).telemetry.length = 1 := by
  rw [heal, if_neg hdis, if_neg (not_not_intro hllm)]
  try simp only []
  split
  · rfl
  · split
    · rfl
    · exact healLLMGo_telemetry cfg w fp sel (fingerprintKey fp) cache _ _ _ _

/-- Witness for the amended C3: a gate-passing call that exhausts its
LLM attempts still emits exactly one record. -/
theorem C3_one_telemetry_record_witness :
    (heal cfgStrict (plainWorld emptyPage) {} "#x" []).telemetry.length = 1 :=
  C3_one_telemetry_record cfgStrict (plainWorld emptyPage) {} "#x" []
    (by decide) rfl

/-! ## Claim C2 -/

unseal Rat.add Rat.mul Rat.inv Rat.sub Rat.ofScientific in
/-- C2 evidence: in debug mode a successful DETERMINISTIC heal is
returned with `success = true` (and is then acted upon by callers),
while the cache is left unmutated.  The claim — and the healer module's
own mode documentation ("debug: only print suggestions, never act on
them") — require `success = false`; only the LLM path implements the
demotion. -/
theorem C2_debug_deterministic_success :
    (heal cfgDebug (plainWorld healPage) fpSave "#old-save"
        []).result.success = true
    ∧ (heal cfgDebug (plainWorld healPage) fpSave "#old-save"
        []).result.healing_method = "deterministic"
    ∧ (heal cfgDebug (plainWorld healPage) fpSave "#old-save" []).cache = [] := by
  decide

/-! ## Dispatch and finalisation lemmas -/

/-- The status `_dispatch` assigns depends only on the assertion, the
world and the candidate — never on the result record it is given. -/
theorem dispatch_status_indep (w : World) (a : Assertion)
    (r r' : AssertionResult) (c : Option SelectorCandidate) :
    (dispatch w a r c).status = (dispatch w a r' c).status := by
  obtain ⟨aid, ty, afp, aev, aan⟩ := a
  cases ty <;> cases c <;>
    simp only [dispatch] <;> (split_ifs <;> rfl)

/-- The `_dispatch` evaluators never touch the `healed` flag. -/
theorem dispatch_healed_eq (w : World) (a : Assertion)
    (r : AssertionResult) (c : Option SelectorCandidate) :
    (dispatch w a r c).healed = r.healed := by
  obtain ⟨aid, ty, afp, aev, aan⟩ := a
  cases ty <;> cases c <;>
    simp only [dispatch] <;> (split_ifs <;> rfl)

/-- The `_dispatch` evaluators never touch the confidence. -/
theorem dispatch_confidence_eq (w : World) (a : Assertion)
    (r : AssertionResult) (c : Option SelectorCandidate) :
    (dispatch w a r c).confidence = r.confidence := by
  obtain ⟨aid, ty, afp, aev, aan⟩ := a
  cases ty <;> cases c <;>
    simp only [dispatch] <;> (split_ifs <;> rfl)

/-- The status finalisation is exactly: FAILED when an assertion failed,
else HEALED when a heal occurred, else PASSED; and it only marks FAILED
with a non-empty error. -/
theorem finalizeStatus_spec (r : StepResult) :
    ((∃ a ∈ (finalizeStatus r).assertions, a.status = .failed) →
        (finalizeStatus r).status = .failed)
    ∧ ((finalizeStatus r).status = .healed →
        (finalizeStatus r).healed = true
        ∧ ∀ a ∈ (finalizeStatus r).assertions, a.status ≠ .failed)
    ∧ ((finalizeStatus r).status = .passed →
        (finalizeStatus r).healed = false
        ∧ ∀ a ∈ (finalizeStatus r).assertions, a.status ≠ .failed)
    ∧ ((finalizeStatus r).status = .failed →
        (∃ a ∈ (finalizeStatus r).assertions, a.status = .failed)
        ∨ (finalizeStatus r).error ≠ "") := by
  rw [finalizeStatus]
  by_cases hany : r.assertions.any (fun a => decide (a.status = .failed)) = true
  · rw [if_pos hany]
    refine ⟨fun _ => rfl, ?_, ?_, fun _ => Or.inr (by simp)⟩
    · intro h
      exact absurd h (by simp)
    · intro h
      exact absurd h (by simp)
  · rw [if_neg hany]
    have hall : ∀ a ∈ r.assertions, a.status ≠ .failed := by
      intro a ha hfa
      exact hany (List.any_eq_true.mpr ⟨a, ha, by simp [hfa]⟩)
    have hnone : ¬ ∃ a ∈ r.assertions, a.status = .failed := by
      rintro ⟨a, ha, hfa⟩
      exact hall a ha hfa
    by_cases hh : r.healed = true
    · rw [if_pos hh]
      refine ⟨fun h => absurd h hnone, fun _ => ⟨hh, hall⟩, ?_, ?_⟩
      · intro h
        exact absurd h (by simp)
      · intro h
        exact absurd h (by simp)
    · rw [if_neg hh]
      refine ⟨fun h => absurd h hnone, ?_, ?_, ?_⟩
      · intro h
        exact absurd h (by simp)
      · intro _
        exact ⟨Bool.not_eq_true r.healed ▸ hh, hall⟩
      · intro h
        exact absurd h (by simp)

/-! ## Claim C8 -/

/-- C8: `execute` finalises the step status as FAILED when an assertion
failed or the action/resolution failed (non-empty error), HEALED when no
assertion failed but a heal occurred, and PASSED otherwise. -/
theorem C8_execute_status (cfg : EngineConfig) (w : World) (step : TestStep)
    (cache : HealCache) :
    ((∃ a ∈ (execute cfg w step cache).1.assertions, a.status = .failed) →
        (execute cfg w step cache).1.status = .failed)
    ∧ ((execute cfg w step cache).1.status = .healed →
        (execute cfg w step cache).1.healed = true
        ∧ ∀ a ∈ (execute cfg w step cache).1.assertions, a.status ≠ .failed)
    ∧ ((execute cfg w step cache).1.status = .passed →
        (execute cfg w step cache).1.healed = false
        ∧ ∀ a ∈ (execute cfg w step cache).1.assertions, a.status ≠ .failed)
    ∧ ((execute cfg w step cache).1.status = .failed →
        (∃ a ∈ (execute cfg w step cache).1.assertions, a.status = .failed)
        ∨ (execute cfg w step cache).1.error ≠ "") := by
  rw [execute]
  try simp only []
  split
  · exact finalizeStatus_spec _
  · split
    · split
      · exact finalizeStatus_spec _
      · refine ⟨fun _ => rfl, ?_, ?_, fun _ => Or.inr (by simp)⟩
        · intro h
          exact absurd h (by simp)
        · intro h
          exact absurd h (by simp)
    · split
      · exact finalizeStatus_spec _
      · split
        · exact finalizeStatus_spec _
        · split
          · exact finalizeStatus_spec _
          · refine ⟨fun _ => rfl, ?_, ?_, fun _ => Or.inr (by simp)⟩
            · intro h
              exact absurd h (by simp)
            · intro h
              exact absurd h (by simp)

unseal Rat.add Rat.mul Rat.inv Rat.sub Rat.ofScientific in
/-- Witness for C8: a step whose single assertion fails is finalised as
FAILED. -/
theorem C8_execute_status_witness :
    (execute cfgDisabled (plainWorld emptyPage) stepNavAssert []).1.status
      = .failed :=
  (C8_execute_status cfgDisabled (plainWorld emptyPage) stepNavAssert []).1
    (by decide)

/-! ## Claim C9 -/

/-- C9: when the initial predicate evaluation fails with confidence
below the threshold and healing yields a validated candidate, `evaluate`
sets `healed := true` and re-runs the predicate — so when the re-run
also fails, the returned `AssertionResult` carries `status = FAILED`
together with `healed = true`. -/
theorem C9_failed_and_healed (cfg : EngineConfig) (w : World) (a : Assertion)
    (cache : HealCache)
    (hres : resolve w.page a.fingerprint = none)
    (hth : 0 < cfg.confidence_threshold)
    (hsh : shouldHeal cfg w = true)
    (hsucc : (heal cfg w a.fingerprint a.fingerprint.css_selector
        cache).result.success = true)
    (hloc : w.page.locate (heal cfg w a.fingerprint a.fingerprint.css_selector
        cache).result.new_selector ≠ [])
    (hfail0 : (dispatch w a {} none).status = .failed)
    (hfail1 : (dispatch w a {}
        (some ⟨w.page.locate (heal cfg w a.fingerprint
                a.fingerprint.css_selector cache).result.new_selector,
              (heal cfg w a.fingerprint a.fingerprint.css_selector
                cache).result.new_selector,
              (heal cfg w a.fingerprint a.fingerprint.css_selector
                cache).result.confidence, "healed"⟩)).status = .failed) :
    (evaluate cfg w a cache).1.status = .failed
    ∧ (evaluate cfg w a cache).1.healed = true := by
  have hH : healAssertionTarget cfg w a none cache =
      (some ⟨w.page.locate (heal cfg w a.fingerprint
                a.fingerprint.css_selector cache).result.new_selector,
             (heal cfg w a.fingerprint a.fingerprint.css_selector
                cache).result.new_selector,
             (heal cfg w a.fingerprint a.fingerprint.css_selector
                cache).result.confidence, "healed"⟩,
       (heal cfg w a.fingerprint a.fingerprint.css_selector cache).cache) := by
    rw [healAssertionTarget]
    try simp only []
    rw [if_neg (not_not_intro hsucc),
        if_neg (fun h0 => hloc (List.length_eq_zero.mp h0))]
  rw [evaluate]
  try simp only []
  simp only [hres]
  have hst : (dispatch w a
      { assertion_id := a.assertion_id,
        assertion_type := assertionTypeStr a.assertion_type,
        confidence := 0 } none).status = .failed := by
    rw [dispatch_status_indep w a _ {} none]
    exact hfail0
  rw [if_pos ⟨hst, by
    rw [dispatch_confidence_eq]
    exact hth, hsh⟩]
  simp only [hH]
  constructor
  · rw [dispatch_status_indep w a _ {} _]
    exact hfail1
  · rw [dispatch_healed_eq]

unseal Rat.add Rat.mul Rat.inv Rat.sub Rat.ofScientific in
/-- Witness for C9: a `text_equals "X"` assertion whose target is absent
heals onto an element with text "Y"; the result is FAILED with
`healed = true`. -/
theorem C9_failed_and_healed_witness :
    (evaluate cfgStrict (plainWorld assertPage) assertX
        [("#m", "#n")]).1.status = .failed
    ∧ (evaluate cfgStrict (plainWorld assertPage) assertX
        [("#m", "#n")]).1.healed = true :=
  C9_failed_and_healed cfgStrict (plainWorld assertPage) assertX
    [("#m", "#n")] (by decide) (by decide) (by decide) (by decide)
    (by decide) (by decide) (by decide)

/-! ## Claim C7 -/

/-- Against a fixed DOM, the candidate poll returns the single resolve
result. -/
theorem resolvePhase1_resolve (pg : Page) (fp : ElementFingerprint)
    (b : SelectorCandidate) (h : resolve pg fp = some b) :
    resolvePhase1 pg fp 10 = some b := by
  rw [show (10 : ℕ) = 9 + 1 from rfl, resolvePhase1, h]

/-- Against a fixed DOM, the hydration retry never changes the best
candidate. -/
theorem resolvePhase2_fixed (pg : Page) (fp : ElementFingerprint)
    (b : SelectorCandidate) (h : resolve pg fp = some b) :
    ∀ n, resolvePhase2 pg fp b n = b := by
  intro n
  induction n with
  | zero => rfl
  | succ m ih =>
    rw [resolvePhase2]
    try simp only []
    simp only [h, lt_irrefl, if_false, ite_self]
    exact ih

theorem textValidate_ne_nil (fp : ElementFingerprint)
    (l : List SelectorCandidate) (h : l ≠ []) : textValidate fp l ≠ [] := by
  rw [textValidate]
  try simp only []
  by_cases h1 : strTrim fp.text_content = ""
  · rw [if_pos h1]
    exact h
  · rw [if_neg h1]
    by_cases h2 : l.filter
        (fun c => textOverlaps (strTrim fp.text_content) (liveTextOf c)) ≠ []
    · rw [if_pos h2]
      exact h2
    · rw [if_neg h2]
      exact h

theorem resolve_gen_ne_nil (pg : Page) (fp : ElementFingerprint)
    (b : SelectorCandidate) (h : resolve pg fp = some b) :
    generateCandidates pg fp ≠ [] := by
  intro hg
  rw [resolve] at h
  try simp only [] at h
  rw [if_pos hg] at h
  exact Option.noConfusion h

theorem resolveCandidates_ne_nil (pg : Page) (fp : ElementFingerprint)
    (b : SelectorCandidate) (h : resolve pg fp = some b) :
    resolveCandidates pg fp ≠ [] := by
  have hg := resolve_gen_ne_nil pg fp b h
  rw [resolveCandidates]
  try simp only []
  rw [if_neg hg]
  exact sortByConfDesc_ne_nil _ (textValidate_ne_nil fp _ hg)

/-- C7: in auto_update mode, a successful in-step heal appends exactly
one entry to the step's `selector_history` — recording the original
(pre-heal) selector, which is never overwritten since the history only
grows by appending — and overwrites the step's stored target selector
(`css_selector` and `selectors["preferred"]`). -/
theorem C7_auto_update_persists (cfg : EngineConfig) (w : World)
    (step : TestStep) (result : StepResult) (cache : HealCache)
    (best : SelectorCandidate)
    (hmode : cfg.healing_mode = .auto_update)
    (hllm : cfg.llm_enabled = true)
    (hres : resolve w.page step.target = some best)
    (hconf : best.confidence < cfg.confidence_threshold)
    (hsucc : (heal cfg w step.target best.selector cache).result.success
      = true) :
    (getCandidatesWithHealing cfg w step result cache).2.1.selector_history =
      step.selector_history ++
        [{ original_selector := best.selector
           healed_selector :=
             (heal cfg w step.target best.selector cache).result.new_selector
           healing_mode := "auto_update"
           confidence_before := best.confidence
           confidence_after :=
             (heal cfg w step.target best.selector cache).result.confidence
           strategy :=
             (heal cfg w step.target best.selector cache).result.strategy
           healing_method :=
             (heal cfg w step.target best.selector
               cache).result.healing_method }]
    ∧ (getCandidatesWithHealing cfg w step result cache).2.1.target.css_selector
        = (heal cfg w step.target best.selector cache).result.new_selector
    ∧ dictGet
        (getCandidatesWithHealing cfg w step result cache).2.1.target.selectors
        "preferred" =
        some (heal cfg w step.target best.selector cache).result.new_selector
    := by
  have hdis : cfg.healing_mode ≠ .disabled := by simp [hmode]
  have hdbg : cfg.healing_mode ≠ .debug := by simp [hmode]
  have hinv := heal_success_invariants cfg w step.target best.selector cache
    hdis hllm hdbg hsucc
  have hlen : 0 < (w.page.locate
      ((heal cfg w step.target best.selector cache).result.new_selector)).length :=
    List.length_pos.mpr (validate_props _ _ hinv.2.2).2
  have h1 : resolvePhase1 w.page step.target 10 = some best :=
    resolvePhase1_resolve _ _ _ hres
  rw [getCandidatesWithHealing]
  try simp only []
  simp only [h1]
  rw [if_pos hconf]
  rw [resolvePhase2_fixed w.page step.target best hres 3]
  rw [if_neg (resolveCandidates_ne_nil w.page step.target best hres)]
  rw [if_pos ⟨hconf, hdis, hllm⟩]
  rw [if_pos hsucc]
  rw [if_pos hlen]
  rw [if_pos hmode]
  refine ⟨?_, rfl, dictGet_dictInsert_self _ _ _⟩
  rw [hmode]
  rfl

unseal Rat.add Rat.mul Rat.inv Rat.sub Rat.ofScientific in
/-- Witness for C7: a low-confidence XPath-only step heals (from a
pre-populated cache) and the step state is updated accordingly. -/
theorem C7_auto_update_persists_witness :
    (getCandidatesWithHealing cfgAuto (plainWorld xpathPage) stepXpath {}
        [("xpath=//b", "#good")]).2.1.selector_history =
      stepXpath.selector_history ++
        [{ original_selector := "xpath=//b"
           healed_selector :=
             (heal cfgAuto (plainWorld xpathPage) stepXpath.target "xpath=//b"
               [("xpath=//b", "#good")]).result.new_selector
           healing_mode := "auto_update"
           confidence_before := 9/20
           confidence_after :=
             (heal cfgAuto (plainWorld xpathPage) stepXpath.target "xpath=//b"
               [("xpath=//b", "#good")]).result.confidence
           strategy :=
             (heal cfgAuto (plainWorld xpathPage) stepXpath.target "xpath=//b"
               [("xpath=//b", "#good")]).result.strategy
           healing_method :=
             (heal cfgAuto (plainWorld xpathPage) stepXpath.target "xpath=//b"
               [("xpath=//b", "#good")]).result.healing_method }]
    ∧ (getCandidatesWithHealing cfgAuto (plainWorld xpathPage) stepXpath {}
        [("xpath=//b", "#good")]).2.1.target.css_selector =
        (heal cfgAuto (plainWorld xpathPage) stepXpath.target "xpath=//b"
          [("xpath=//b", "#good")]).result.new_selector
    ∧ dictGet
        (getCandidatesWithHealing cfgAuto (plainWorld xpathPage) stepXpath {}
          [("xpath=//b", "#good")]).2.1.target.selectors "preferred" =
        some (heal cfgAuto (plainWorld xpathPage) stepXpath.target "xpath=//b"
          [("xpath=//b", "#good")]).result.new_selector :=
  C7_auto_update_persists cfgAuto (plainWorld xpathPage) stepXpath {}
    [("xpath=//b", "#good")] ⟨[elBold], "xpath=//b", 9/20, "xpath"⟩
    rfl rfl (by decide) (by decide) (by decide)

end AutoMateQA
